import Mathlib

/-! psk-local-ipc-go: framing, Write and Read contracts, handshake, start-up, paths,
dial loop, reconnect, reader loops and closing

A shallow embedding of the Go package `ipc` (files `types.go`, `server_all.go`,
`client_all.go`, `handshake.go`, `connect_other.go`, `connect_windows.go`) together with
theorems about it.

Conventions of the embedding

* Go `int` is `Int` (the 64-bit range is a subset; conversions to `uint32` are
  written as an explicit `% 2^32`), `[]byte` is `List Byte`, `error` is
  `Option String` (`none` is `nil`, `some t` an error whose `Error()` is `t`),
  `float64` is `ℚ` (its finite values).
* A channel is a queue with a closed flag (`Chan`). A send appends to the queue;
  the rendezvous of an unbuffered channel is not modelled. Sending on a closed
  channel and closing a closed channel are Go run-time panics (`Outcome.panic`).
* A `net.Conn` is a pair of byte queues (`Conn`): what the peer has sent and is
  still unread, and what has been written to the peer.
* A `*Connection` stored in a `Message` is a handle (`ConnPtr`).
* `go f(x)` is recorded as an entry of a list of started goroutines.
* Time is an input: every iteration of the dial loop is given the seconds elapsed
  since the loop started and the result of its dial attempt (`DialTick`).
* The two platform files declare the same names; their functions are kept apart as
  `Posix.` and `Windows.`.
-/

namespace Ipc

/-! ## Basic types -/

/-- One octet. -/
abbrev Byte := Fin 256

/-- Result of a Go call that either returns normally or panics. -/
inductive Outcome (α : Type) where
  | ok : α → Outcome α
  | panic : String → Outcome α
  deriving DecidableEq, Repr

/-- Status of the connection (`types.go`, the nine `iota` constants of `type Status int`,
in declaration order). -/
inductive Status where
  | NotConnected
  | Listening
  | Connecting
  | Connected
  | ReConnecting
  | Closed
  | Closing
  | Error
  | Timeout
  deriving DecidableEq, Repr

/-- Modelled from the spec: the method `Status.String` is called by both `Write`
functions but is not declared in the source files at hand. Spec §3: each status has a
canonical human-readable string, `ReConnecting` is "Re-connecting", `NotConnected` is
"Not Connected", the others are title-cased; `TestStatus` and `TestWrite` assert the same
texts. -/
def Status.String : Status → String
  | .NotConnected => "Not Connected"
  | .Listening => "Listening"
  | .Connecting => "Connecting"
  | .Connected => "Connected"
  | .ReConnecting => "Re-connecting"
  | .Closed => "Closed"
  | .Closing => "Closing"
  | .Error => "Error"
  | .Timeout => "Timeout"

/-- Address of a server-side `Connection` (the `*Connection` held by a `Message`). -/
abbrev ConnPtr := Nat

/-- Message (`types.go`). Field defaults are the Go zero values, so that a structure
instance naming only some fields reads like the composite literal in the source. -/
structure Message where
  MsgType : Int := 0
  Connection : Option ConnPtr := none
  err : Option String := none
  Data : List Byte := []
  Status : Ipc.Status := Ipc.Status.NotConnected
  deriving DecidableEq, Repr

/-- A Go channel: the values sent and not yet received, oldest first, and whether
`close` has been called on it. -/
structure Chan (α : Type) where
  queue : List α := []
  closed : Bool := false
  deriving DecidableEq, Repr

/-- The statement `ch <- v`: a run-time panic on a closed channel. -/
def Chan.send {α : Type} (ch : Chan α) (v : α) : Outcome (Chan α) :=
  if ch.closed then .panic "send on closed channel"
  else .ok { ch with queue := ch.queue ++ [v] }

/-- What one `conn.Read(buff)` reports. -/
inductive ReadResult where
  | data : List Byte → ReadResult
  | fail : String → ReadResult
  | block : ReadResult
  deriving DecidableEq, Repr

/-- A `net.Conn` as this package uses it. `toRead` holds the bytes the peer has sent
that were not read yet; `readErr` is the error a `Read` reports when `toRead` cannot
fill its buffer (`none`: the stream is still open and the `Read` waits); `written`
holds the bytes written to the peer so far; `writeErr` is the error every `Write`
reports (`none`: writes succeed). -/
structure Conn where
  toRead : List Byte := []
  readErr : Option String := none
  written : List Byte := []
  writeErr : Option String := none
  closed : Bool := false
  deriving DecidableEq, Repr

/-- The call `conn.Read(buff)` with `len(buff) = n`, every successful read filling its
buffer. -/
def Conn.Read (c : Conn) (n : Nat) : ReadResult × Conn :=
  if n ≤ c.toRead.length then
    (.data (c.toRead.take n), { c with toRead := c.toRead.drop n })
  else
    match c.readErr with
    | some e => (.fail e, c)
    | none => (.block, c)

/-- The call `conn.Write(b)`: the returned error and the stream afterwards. -/
def Conn.Write (c : Conn) (b : List Byte) : Option String × Conn :=
  match c.writeErr with
  | some e => (some e, c)
  | none => (none, { c with written := c.written ++ b })

/-- The call `conn.Close()`. -/
def Conn.Close (c : Conn) : Conn := { c with closed := true }

/-- The `tls.PSKConfig` of the TLS library (a pair of callbacks). This package only
copies it from the configuration into the endpoint. -/
structure PSKConfig where
  handle : Nat := 0
  deriving DecidableEq, Repr

/-- Connection (`types.go`); the mutex is not represented, every function below runs
as one atomic step. -/
structure Connection where
  conn : Conn := {}
  maxMsgSize : Int := 0
  status : Status := .NotConnected
  toWrite : Chan Message := {}
  deriving DecidableEq, Repr

/-- Server (`types.go`); the listener is not represented. -/
structure Server where
  socketDirectory : String := ""
  name : String := ""
  status : Status := .NotConnected
  recieved : Chan Message := {}
  maxMsgSize : Int := 0
  unMask : Int := 0
  securityDescriptor : String := ""
  pskConfig : PSKConfig := {}
  deriving DecidableEq, Repr

/-- Client (`types.go`). `conn` is `none` while the Go field is the nil interface.
`timeout` is a `float64` in the source; its finite values are rationals. -/
structure Client where
  socketDirectory : String := ""
  name : String := ""
  conn : Option Conn := none
  status : Status := .NotConnected
  timeout : ℚ := 0
  retryTimer : Int := 0
  recieved : Chan Message := {}
  toWrite : Chan Message := {}
  maxMsgSize : Int := 0
  pskConfig : PSKConfig := {}
  deriving DecidableEq, Repr

/-- ServerConfig (`types.go`). -/
structure ServerConfig where
  SocketDirectory : String := ""
  Timeout : Int := 0
  MaxMsgSize : Int := 0
  UseUnmask : Bool := false
  Unmask : Int := 0
  SecurityDescriptor : String := ""
  PskConfig : PSKConfig := {}
  deriving DecidableEq, Repr

/-- ClientConfig (`types.go`). -/
structure ClientConfig where
  SocketDirectory : String := ""
  Timeout : ℚ := 0
  RetryTimer : Int := 0
  PskConfig : PSKConfig := {}
  deriving DecidableEq, Repr

/-! ## Write -/

/-- Connection.Write (`server_all.go`): the returned error and the connection
afterwards. -/
def Connection.Write (connection : Connection) (msgType : Int) (message : List Byte) :
    Outcome (Option String × Connection) :=
  if msgType = 0 then
    .ok (some "Message type 0 is reserved", connection)
  else
    let mlen : Int := message.length
    if mlen > connection.maxMsgSize then
      .ok (some "Message exceeds maximum message length", connection)
    else if connection.status = .Connected then
      match connection.toWrite.send { MsgType := msgType, Data := message } with
      | .ok ch => .ok (none, { connection with toWrite := ch })
      | .panic p => .panic p
    else
      .ok (some connection.status.String, connection)

/-- Client.Write (`client_all.go`): the returned error and the client afterwards. -/
def Client.Write (cc : Client) (msgType : Int) (message : List Byte) :
    Outcome (Option String × Client) :=
  if msgType = 0 then
    .ok (some "Message type 0 is reserved", cc)
  else if cc.status ≠ .Connected then
    .ok (some cc.status.String, cc)
  else
    let mlen : Int := message.length
    if mlen > cc.maxMsgSize then
      .ok (some "Message exceeds maximum message length", cc)
    else
      match cc.toWrite.send { MsgType := msgType, Data := message } with
      | .ok ch => .ok (none, { cc with toWrite := ch })
      | .panic p => .panic p

/-! ## Framing codec and connection workers -/

/-- The library call `binary.BigEndian.PutUint32(b, v)`: the 4 bytes stored for the
`uint32` value `v`, most significant first. -/
def putUint32 (v : Nat) : List Byte :=
  [Fin.ofNat (v / 16777216), Fin.ofNat (v / 65536), Fin.ofNat (v / 256), Fin.ofNat v]

/-- The library call `binary.Read(bytes.NewReader(b), binary.BigEndian, &v)` for a
`uint32` variable `v` that starts at zero: the big-endian value of the first 4 bytes;
with fewer than 4 bytes the read fails and `v` keeps its zero. -/
def readUint32 (b : List Byte) : Nat :=
  match b with
  | b0 :: b1 :: b2 :: b3 :: _ => b0.val * 16777216 + b1.val * 65536 + b2.val * 256 + b3.val
  | _ => 0

/-- Modelled from the spec: the helper `intToBytes`, called by both writer workers, is
not declared in the source files at hand. Spec §4.C and §6: lengths and message types go
on the wire as 4 bytes, big-endian. The Go `int` argument is narrowed to `uint32`,
which keeps its value modulo `2^32`. -/
def intToBytes (mLen : Int) : List Byte :=
  putUint32 (mLen % 4294967296).toNat

/-- Modelled from the spec: the helper `bytesToInt`, called by both reader workers, is
not declared in the source files at hand. Spec §3 and §4.C: the 4 bytes are read
big-endian and the length is unsigned 32-bit on the wire (`totalLen: uint32`), the
conversion `Client.handshake` also uses for `recv[4:]`; the readers call the same helper
for the length and for the message type, and its result is a Go `int`. The spec words
the message type as signed (`readInt32` below); the two readings give the same value
for every field whose first byte is below 128, and differ by `2^32` on the others. -/
def bytesToInt (b : List Byte) : Int :=
  (readUint32 b : Int)

/-- Modelled from the spec: the 4-byte field read as the spec words the message type
(§3 `msgType: int32`, §4.C step 3 "big-endian signed"), the big-endian value taken as a
two's complement 32-bit number. It is not called by the embedding of the code; it states
where the signed reading agrees with `bytesToInt`. -/
def readInt32 (b : List Byte) : Int :=
  if readUint32 b < 2147483648 then (readUint32 b : Int)
  else (readUint32 b : Int) - 4294967296

/-- The value received by `m, ok := <-ch`. -/
inductive RecvResult (α : Type) where
  | value : α → Chan α → RecvResult α
  | done : RecvResult α
  | block : RecvResult α
  deriving DecidableEq, Repr

/-- The expression `<-ch`: the oldest value, or `ok == false` on a closed and drained
channel, or a wait on an open and empty one. -/
def Chan.recv {α : Type} (ch : Chan α) : RecvResult α :=
  match ch.queue with
  | v :: rest => .value v { ch with queue := rest }
  | [] => if ch.closed then .done else .block

/-- The statement `close(ch)`: a run-time panic on a closed channel. -/
def Chan.close {α : Type} (ch : Chan α) : Outcome (Chan α) :=
  if ch.closed then .panic "close of closed channel"
  else .ok { ch with closed := true }

/-- Body of the writer loop for one dequeued message `m` (`Server.write` and
`Client.write` share it): `toSend` is the type followed by the data, the buffered
writer receives the length of `toSend` and then `toSend`, and `Flush` hands both to
the stream. The error of `Flush` is dropped by the source. -/
def writeFrame (conn : Conn) (m : Message) : Conn :=
  let toSend := intToBytes m.MsgType ++ m.Data
  (conn.Write (intToBytes (toSend.length : Int) ++ toSend)).2

/-- The loop of the writer workers over the messages they dequeue, oldest first, until
the outbound channel is drained; the worker then leaves the loop if the channel is closed
and waits otherwise. -/
def writeLoop (conn : Conn) : List Message → Conn
  | [] => conn
  | m :: rest => writeLoop (writeFrame conn m) rest

/-- Server.write (`server_all.go`) on a connection. The pacing sleep is not modelled. -/
def Server.write (connection : Connection) : Connection :=
  { connection with
    conn := writeLoop connection.conn connection.toWrite.queue
    toWrite := { connection.toWrite with queue := [] } }

/-- Client.write (`client_all.go`): as `Server.write`, on the stream of the client.
Flushing to the nil interface is a run-time panic. -/
def Client.write (cc : Client) : Outcome Client :=
  match cc.toWrite.queue with
  | [] => .ok cc
  | m :: rest =>
    match cc.conn with
    | none => .panic "invalid memory address or nil pointer dereference"
    | some conn =>
      .ok { cc with
            conn := some (writeLoop conn (m :: rest))
            toWrite := { cc.toWrite with queue := [] } }

/-- Connection.Close (`server_all.go`). -/
def Connection.Close (connection : Connection) : Outcome Connection :=
  if connection.status = .Closed then
    match connection.toWrite.close with
    | .ok ch => .ok { connection with toWrite := ch }
    | .panic p => .panic p
  else
    .ok { connection with status := .Closing, conn := connection.conn.Close }

/-- What `readData` tells its caller: `true` with the filled buffer, `false`, or the
worker is waiting inside `Read`. -/
inductive ReadData where
  | filled : List Byte → ReadData
  | failed : ReadData
  | waiting : ReadData
  deriving DecidableEq, Repr

/-- Server.readData (`server_all.go`) for a buffer of `n` bytes; `ptr` is the address
of `connection`. -/
def Server.readData (sc : Server) (connection : Connection) (ptr : ConnPtr) (n : Nat) :
    Outcome (ReadData × Server × Connection) :=
  match connection.conn.Read n with
  | (.data buff, conn) => .ok (.filled buff, sc, { connection with conn := conn })
  | (.block, _) => .ok (.waiting, sc, connection)
  | (.fail _, _) =>
    let oldStatus := connection.status
    let connection := { connection with status := Status.Closed }
    let sent :=
      if sc.status ≠ .Closed then
        sc.recieved.send { Connection := some ptr, Status := connection.status, MsgType := -1 }
      else .ok sc.recieved
    match sent with
    | .panic p => .panic p
    | .ok ch =>
      let sc := { sc with recieved := ch }
      if oldStatus = .Closing then .ok (.failed, sc, connection)
      else
        match connection.Close with
        | .panic p => .panic p
        | .ok connection => .ok (.failed, sc, connection)

/-- How a run of a reader loop ends: it left the loop after a failed read, it waits
inside `Read` for more bytes, or the step budget of the model ran out. -/
inductive LoopEnd where
  | stopped
  | waiting
  | more
  deriving DecidableEq, Repr

/-- Server.read (`server_all.go`): the reader loop, at most `fuel` iterations. The
buffer `msgRecvd` has length and capacity `mLen`, so `msgRecvd[:4]` panics below 4. -/
def Server.readLoop (ptr : ConnPtr) :
    Nat → Server → Connection → Outcome (LoopEnd × Server × Connection)
  | 0, sc, connection => .ok (.more, sc, connection)
  | fuel + 1, sc, connection =>
    match Server.readData sc connection ptr 4 with
    | .panic p => .panic p
    | .ok (.failed, sc, connection) => .ok (.stopped, sc, connection)
    | .ok (.waiting, sc, connection) => .ok (.waiting, sc, connection)
    | .ok (.filled bLen, sc, connection) =>
      let mLen := bytesToInt bLen
      match Server.readData sc connection ptr mLen.toNat with
      | .panic p => .panic p
      | .ok (.failed, sc, connection) => .ok (.stopped, sc, connection)
      | .ok (.waiting, sc, connection) => .ok (.waiting, sc, connection)
      | .ok (.filled msgRecvd, sc, connection) =>
        if msgRecvd.length < 4 then
          .panic "slice bounds out of range"
        else if bytesToInt (msgRecvd.take 4) = 0 then
          Server.readLoop ptr fuel sc connection
        else if sc.status ≠ .Closed then
          match sc.recieved.send
              { Connection := some ptr, Data := msgRecvd.drop 4,
                MsgType := bytesToInt (msgRecvd.take 4) } with
          | .panic p => .panic p
          | .ok ch => Server.readLoop ptr fuel { sc with recieved := ch } connection
        else
          Server.readLoop ptr fuel sc connection

/-- Server.read (`server_all.go`). Every iteration that continues takes at least the 4
length bytes off the stream, so the budget below is never used up. -/
def Server.read (sc : Server) (connection : Connection) (ptr : ConnPtr) :
    Outcome (LoopEnd × Server × Connection) :=
  Server.readLoop ptr (connection.conn.toRead.length / 4 + 1) sc connection

/-! ## Handshake -/

/-- A call that has returned a value, or is still waiting inside a `Read`. -/
inductive Await (α : Type) where
  | returned : α → Await α
  | waiting : Await α
  deriving DecidableEq, Repr

/-- Server.handshake (`handshake.go`). The package constants `version` and `maxMsgSize`
are not declared in the source files at hand and are parameters here: `version` is
converted to a byte and compared with one, `maxMsgSize` is passed as a `uint32`. -/
def Server.handshake (version : Byte) (maxMsgSize : Nat) (connection : Connection) :
    Await (Option String) × Connection :=
  let buff : List Byte := [version, 0, 0, 0] ++ putUint32 maxMsgSize
  match connection.conn.Write buff with
  | (some err, conn) =>
    (.returned (some ("unable to send handshake: " ++ err)), { connection with conn := conn })
  | (none, conn) =>
    let connection := { connection with conn := conn }
    match connection.conn.Read 1 with
    | (.block, _) => (.waiting, connection)
    | (.fail _, conn) =>
      (.returned (some "failed to recieve handshake reply"), { connection with conn := conn })
    | (.data recv, conn) =>
      let connection := { connection with conn := conn }
      match recv.head? with
      | some 0 => (.returned none, connection)
      | some 1 => (.returned (some "client has a different version number"), connection)
      | _ => (.returned (some "other error - handshake failed"), connection)

/-- Client.handshakeSendReply (`handshake.go`); the error of `Write` is dropped. -/
def Client.handshakeSendReply (conn : Conn) (result : Byte) : Conn :=
  (conn.Write [result]).2

/-- Client.handshake (`handshake.go`). A method call on the nil stream is a run-time
panic. -/
def Client.handshake (version : Byte) (cc : Client) : Outcome (Await (Option String) × Client) :=
  match cc.conn with
  | none => .panic "invalid memory address or nil pointer dereference"
  | some conn =>
    match conn.Read 8 with
    | (.block, _) => .ok (.waiting, cc)
    | (.fail err, conn) =>
      .ok (.returned (some ("failed to recieve handshake message: " ++ err)),
        { cc with conn := some conn })
    | (.data recv, conn) =>
      let recv0 : Byte := recv.headD 0
      if recv0 ≠ version then
        .ok (.returned
          (some ("server has sent a different version number: " ++ toString recv0.val)),
          { cc with conn := some (Client.handshakeSendReply conn 1) })
      else
        let maxMsgSize : Nat := readUint32 (recv.drop 4)
        .ok (.returned none,
          { cc with maxMsgSize := (maxMsgSize : Int)
                    conn := some (Client.handshakeSendReply conn 0) })

/-! ## Start-up -/

/-- Modelled from the spec: the helper `checkIpcName` is not declared in the source
files at hand. Spec §4.A: name validation rejects the empty string with the exact error
"ipcName cannot be an empty string"; `TestStartUp_Name` asserts that text. -/
def checkIpcName (ipcName : String) : Option String :=
  if ipcName.length = 0 then some "ipcName cannot be an empty string" else none

/-- The goroutines this package starts with a `go` statement. -/
inductive Goroutine where
  | startServer
  | startClient
  | acceptLoop
  | serverRead
  | serverWrite
  | clientRead
  | clientWrite
  | reconnect
  deriving DecidableEq, Repr

/-- What a `Start*` function hands back: the returned endpoint (`none` is the nil
pointer), the returned error, and the goroutines it has started. -/
structure Started (E : Type) where
  endpoint : Option E
  err : Option String
  started : List Goroutine
  deriving DecidableEq, Repr

/-- StartServer (`server_all.go`); `config` is `none` for the nil pointer. The package
constant `maxMsgSize` is a parameter. -/
def StartServer (maxMsgSize : Nat) (ipcName : String) (config : Option ServerConfig) :
    Started Server :=
  match config with
  | none => { endpoint := none, err := some "config is required", started := [] }
  | some config =>
    match checkIpcName ipcName with
    | some err => { endpoint := none, err := some err, started := [] }
    | none =>
      let sc : Server :=
        { name := ipcName
          status := .NotConnected
          recieved := {}
          unMask := -1
          pskConfig := config.PskConfig
          socketDirectory := config.SocketDirectory
          securityDescriptor := config.SecurityDescriptor }
      let sc : Server :=
        if config.MaxMsgSize < 1024 then { sc with maxMsgSize := (maxMsgSize : Int) }
        else { sc with maxMsgSize := config.MaxMsgSize }
      let sc : Server :=
        if config.UseUnmask then { sc with unMask := config.Unmask } else sc
      { endpoint := some sc, err := none, started := [.startServer] }

/-- StartClient (`client_all.go`); `config` is `none` for the nil pointer. The second
test `config == nil` of the source, after the first one has returned, is never true,
so only its else branch appears. -/
def StartClient (ipcName : String) (config : Option ClientConfig) : Started Client :=
  match config with
  | none => { endpoint := none, err := some "config is required", started := [] }
  | some config =>
    match checkIpcName ipcName with
    | some err => { endpoint := none, err := some err, started := [] }
    | none =>
      let cc : Client :=
        { socketDirectory := config.SocketDirectory
          name := ipcName
          status := .NotConnected
          recieved := {}
          toWrite := {}
          pskConfig := config.PskConfig }
      let cc : Client :=
        if config.Timeout < 0 then { cc with timeout := 0 }
        else { cc with timeout := config.Timeout }
      let cc : Client :=
        if config.RetryTimer < 1 then { cc with retryTimer := 1 }
        else { cc with retryTimer := config.RetryTimer }
      { endpoint := some cc, err := none, started := [.startClient] }

/-- The `Connection` the accept loop builds for an accepted stream
(`Server.acceptLoop`, `server_all.go`). -/
def Server.newConnection (sc : Server) (conn : Conn) : Connection :=
  { maxMsgSize := sc.maxMsgSize
    conn := conn
    status := .Connecting
    toWrite := {} }

/-- One iteration of Server.acceptLoop (`server_all.go`) for an accepted stream `conn`
whose `Connection` is allocated at `ptr`: the goroutines started, unless the loop is
waiting inside the handshake. -/
def Server.acceptLoop (version : Byte) (maxMsgSize : Nat) (sc : Server) (conn : Conn)
    (ptr : ConnPtr) : Outcome (Await (List Goroutine) × Server × Connection) :=
  let connection := sc.newConnection conn
  match sc.recieved.send
      { MsgType := -2, Connection := some ptr, Status := connection.status } with
  | .panic p => .panic p
  | .ok ch =>
    let sc := { sc with recieved := ch }
    match Server.handshake version maxMsgSize connection with
    | (.waiting, connection) => .ok (.waiting, sc, connection)
    | (.returned (some err2), connection) =>
      match sc.recieved.send { err := some err2, MsgType := -2 } with
      | .panic p => .panic p
      | .ok ch =>
        .ok (.returned [], { sc with recieved := ch },
          { connection with conn := connection.conn.Close })
    | (.returned none, connection) =>
      let connection := { connection with status := Status.Connected }
      match sc.recieved.send
          { MsgType := -2, Connection := some ptr, Status := connection.status } with
      | .panic p => .panic p
      | .ok ch =>
        .ok (.returned [.serverRead, .serverWrite], { sc with recieved := ch }, connection)

/-! ## Read -/

/-- Server.Read (`server_all.go`): what the call returns, `(message, error)`, or that it
waits on the open and empty inbound channel; and the server afterwards. -/
def Server.Read (sc : Server) : Await (Option Message × Option String) × Server :=
  match sc.recieved.recv with
  | .block => (.waiting, sc)
  | .done => (.returned (none, some "the recieve channel has been closed"), sc)
  | .value m ch =>
    let sc := { sc with recieved := ch }
    match m.err with
    | some e => (.returned (none, some e), sc)
    | none => (.returned (some m, none), sc)

/-- Client.Read (`client_all.go`): what the call returns, `(message, error)`, or that it
waits on the open and empty inbound channel; and the client afterwards. -/
def Client.Read (cc : Client) : Outcome (Await (Option Message × Option String) × Client) :=
  match cc.recieved.recv with
  | .block => .ok (.waiting, cc)
  | .done => .ok (.returned (none, some "the recieve channel has been closed"), cc)
  | .value m ch =>
    let cc := { cc with recieved := ch }
    match m.err with
    | some e =>
      match cc.recieved.close with
      | .panic p => .panic p
      | .ok ch1 =>
        match cc.toWrite.close with
        | .panic p => .panic p
        | .ok ch2 => .ok (.returned (none, some e), { cc with recieved := ch1, toWrite := ch2 })
    | none => .ok (.returned (some m, none), cc)

/-- The results of `n` successive calls of `Server.Read` by the application, in order,
and the server after the last one. -/
def Server.Reads : Nat → Server → List (Await (Option Message × Option String)) × Server
  | 0, sc => ([], sc)
  | n + 1, sc =>
    let r := sc.Read
    let rs := Server.Reads n r.2
    (r.1 :: rs.1, rs.2)

/-- The results of `n` successive calls of `Client.Read` by the application, in order,
and the client after the last one. -/
def Client.Reads :
    Nat → Client → Outcome (List (Await (Option Message × Option String)) × Client)
  | 0, cc => .ok ([], cc)
  | n + 1, cc =>
    match cc.Read with
    | .panic p => .panic p
    | .ok (r, cc1) =>
      match Client.Reads n cc1 with
      | .panic p => .panic p
      | .ok (rs, cc2) => .ok (r :: rs, cc2)

/-! ## Paths and the dial loop -/

/-- The library call `strings.HasSuffix(s, suffix)`. -/
def hasSuffix (s suffix : String) : Bool :=
  suffix.data.isSuffixOf s.data

/-- The library call `strings.Contains(s, substr)`. -/
def strContains (s substr : String) : Bool :=
  decide (substr.data <:+: s.data)

/-- Function buildPipePath of `connect_other.go` (linux, darwin). -/
def Posix.buildPipePath (dir : String) (name : String) : String :=
  let base := dir
  let base :=
    if base = "" then "/tmp/"
    else if !hasSuffix base "/" then base ++ "/"
    else base
  base ++ name ++ ".sock"

/-- Function buildPipePath of `connect_windows.go`. -/
def Windows.buildPipePath (dir : String) (name : String) : String :=
  let base := dir
  let base :=
    if base = "" then "\\\\.\\pipe\\"
    else if !hasSuffix base "\\" then base ++ "\\"
    else base
  base ++ name

/-- What one call of the platform dialer (`net.Dial`, `winio.DialPipe`) returns. -/
inductive DialResult where
  | conn : Conn → DialResult
  | err : String → DialResult
  deriving DecidableEq, Repr

/-- What one iteration of the dial loop observes: the seconds elapsed since the loop
started, read at the top of the iteration, and the result of its dial attempt. -/
structure DialTick where
  elapsed : ℚ
  attempt : DialResult
  deriving DecidableEq, Repr

/-- How a run of the dial loop ends: it returned a stream, it returned an error, or it
is still retrying after the iterations given. -/
inductive DialEnd where
  | connected : Conn → DialEnd
  | failed : String → DialEnd
  | retrying : DialEnd
  deriving DecidableEq, Repr

/-- Client.dial of `connect_other.go` (linux, darwin), run over the iterations `ticks`.
The sleep of `retryTimer` seconds between two iterations shows only in their elapsed
times. -/
def Posix.Client.dial (cc : Ipc.Client) : List DialTick → Outcome (DialEnd × Ipc.Client)
  | [] => .ok (.retrying, cc)
  | tick :: rest =>
    if cc.timeout ≠ 0 ∧ tick.elapsed > cc.timeout then
      .ok (.failed "Timed out trying to connect", { cc with status := .Closed })
    else
      match tick.attempt with
      | .conn conn => .ok (.connected conn, cc)
      | .err err =>
        if strContains err "connect: no such file or directory" = true then
          Posix.Client.dial cc rest
        else if strContains err "connect: Connection refused" = true then
          Posix.Client.dial cc rest
        else
          match cc.recieved.send { err := some err, MsgType := -2 } with
          | .panic p => .panic p
          | .ok ch => Posix.Client.dial { cc with recieved := ch } rest

/-- Client.dial of `connect_windows.go`, run over the iterations `ticks`. -/
def Windows.Client.dial (cc : Ipc.Client) : List DialTick → Outcome (DialEnd × Ipc.Client)
  | [] => .ok (.retrying, cc)
  | tick :: rest =>
    if cc.timeout ≠ 0 ∧ tick.elapsed > cc.timeout then
      .ok (.failed "Timed out trying to connect", { cc with status := .Closed })
    else
      match tick.attempt with
      | .conn pn => .ok (.connected pn, cc)
      | .err err =>
        if !strContains err "The system cannot find the file specified." then
          .ok (.failed err, cc)
        else
          Windows.Client.dial cc rest

/-! ## Client connection life cycle -/

/-- Client.createConnection (`client_all.go`). `dial` is the `cc.dial()` of the platform,
run over the iterations it meets. The TLS wrapping of the dialled stream is not
modelled: the stream stands for the wrapped one. The result is the returned error, or
that the call still waits (the dial loop is retrying, or the handshake waits for the
record). -/
def Client.createConnection (version : Byte)
    (dial : Client → Outcome (DialEnd × Client)) (cc : Client) :
    Outcome (Await (Option String) × Client) :=
  match dial cc with
  | .panic p => .panic p
  | .ok (.retrying, cc) => .ok (.waiting, cc)
  | .ok (.failed err, cc) => .ok (.returned (some err), cc)
  | .ok (.connected conn, cc) =>
    let cc := { cc with conn := some conn }
    match Client.handshake version cc with
    | .panic p => .panic p
    | .ok (.waiting, cc) => .ok (.waiting, cc)
    | .ok (.returned (some err), cc) => .ok (.returned (some err), cc)
    | .ok (.returned none, cc) =>
      let cc := { cc with status := Status.Connected }
      match cc.recieved.send { Status := cc.status, MsgType := -1 } with
      | .panic p => .panic p
      | .ok ch => .ok (.returned none, { cc with recieved := ch })

/-- Function startClient (`client_all.go`): the goroutines it starts, unless it still
waits inside `createConnection`. -/
def startClient (version : Byte) (dial : Client → Outcome (DialEnd × Client))
    (cc : Client) : Outcome (Await (List Goroutine) × Client) :=
  let cc := { cc with status := Status.Connecting }
  match cc.recieved.send { Status := cc.status, MsgType := -1 } with
  | .panic p => .panic p
  | .ok ch =>
    let cc := { cc with recieved := ch }
    match Client.createConnection version dial cc with
    | .panic p => .panic p
    | .ok (.waiting, cc) => .ok (.waiting, cc)
    | .ok (.returned (some err), cc) =>
      match cc.recieved.send { err := some err, MsgType := -2 } with
      | .panic p => .panic p
      | .ok ch => .ok (.returned [], { cc with recieved := ch })
    | .ok (.returned none, cc) => .ok (.returned [.clientRead, .clientWrite], cc)

/-- Client.reconnect (`client_all.go`): the goroutines it starts, unless it still waits
inside `createConnection`. -/
def Client.reconnect (version : Byte) (dial : Client → Outcome (DialEnd × Client))
    (cc : Client) : Outcome (Await (List Goroutine) × Client) :=
  let cc := { cc with status := Status.ReConnecting }
  match cc.recieved.send { Status := cc.status, MsgType := -1 } with
  | .panic p => .panic p
  | .ok ch =>
    let cc := { cc with recieved := ch }
    match Client.createConnection version dial cc with
    | .panic p => .panic p
    | .ok (.waiting, cc) => .ok (.waiting, cc)
    | .ok (.returned (some err), cc) =>
      if err = "Timed out trying to connect" then
        let cc := { cc with status := Status.Timeout }
        match cc.recieved.send { Status := cc.status, MsgType := -1 } with
        | .panic p => .panic p
        | .ok ch =>
          let cc := { cc with recieved := ch }
          match cc.recieved.send
              { err := some "Timed out trying to re-connect", MsgType := -2 } with
          | .panic p => .panic p
          | .ok ch => .ok (.returned [], { cc with recieved := ch })
      else
        .ok (.returned [], cc)
    | .ok (.returned none, cc) => .ok (.returned [.clientRead], cc)

/-- Client.readData (`client_all.go`) for a buffer of `n` bytes: what it tells its
caller, the client afterwards, and the goroutines it starts. -/
def Client.readData (cc : Client) (n : Nat) : Outcome (ReadData × Client × List Goroutine) :=
  match cc.conn with
  | none => .panic "invalid memory address or nil pointer dereference"
  | some conn =>
    match conn.Read n with
    | (.data buff, conn) => .ok (.filled buff, { cc with conn := some conn }, [])
    | (.block, _) => .ok (.waiting, cc, [])
    | (.fail err, conn) =>
      if strContains err "EOF" = true then
        let cc := { cc with conn := some conn.Close }
        if cc.status ≠ .Closing ∨ cc.status = .Closed then
          .ok (.failed, cc, [.reconnect])
        else
          .ok (.failed, cc, [])
      else if cc.status = .Closing then
        let cc := { cc with status := Status.Closed }
        match cc.recieved.send { Status := cc.status, MsgType := -1 } with
        | .panic p => .panic p
        | .ok ch =>
          let cc := { cc with recieved := ch }
          match cc.recieved.send
              { err := some "Client has closed the Connection", MsgType := -2 } with
          | .panic p => .panic p
          | .ok ch => .ok (.failed, { cc with recieved := ch }, [])
      else
        .ok (.failed, cc, [])

/-- Client.Close (`client_all.go`). A method call on the nil stream is a run-time
panic. -/
def Client.Close (cc : Client) : Outcome Client :=
  let cc := { cc with status := Status.Closing }
  match cc.conn with
  | none => .panic "invalid memory address or nil pointer dereference"
  | some conn => .ok { cc with conn := some conn.Close }

/-! ## Client reader and connection events -/

/-- Client.read (`client_all.go`): the reader loop, at most `fuel` iterations, with the
goroutines started by the `readData` call that ended it. The buffer `msgRecvd` has
length and capacity `mLen`, so `msgRecvd[:4]` panics below 4. -/
def Client.readLoop : Nat → Client → Outcome (LoopEnd × Client × List Goroutine)
  | 0, cc => .ok (.more, cc, [])
  | fuel + 1, cc =>
    match Client.readData cc 4 with
    | .panic p => .panic p
    | .ok (.failed, cc, started) => .ok (.stopped, cc, started)
    | .ok (.waiting, cc, started) => .ok (.waiting, cc, started)
    | .ok (.filled bLen, cc, _) =>
      let mLen := bytesToInt bLen
      match Client.readData cc mLen.toNat with
      | .panic p => .panic p
      | .ok (.failed, cc, started) => .ok (.stopped, cc, started)
      | .ok (.waiting, cc, started) => .ok (.waiting, cc, started)
      | .ok (.filled msgRecvd, cc, _) =>
        if msgRecvd.length < 4 then
          .panic "slice bounds out of range"
        else if bytesToInt (msgRecvd.take 4) = 0 then
          Client.readLoop fuel cc
        else
          match cc.recieved.send
              { Status := cc.status, Data := msgRecvd.drop 4,
                MsgType := bytesToInt (msgRecvd.take 4) } with
          | .panic p => .panic p
          | .ok ch => Client.readLoop fuel { cc with recieved := ch }

/-- The bytes of the client's stream that are still unread (none on the nil stream). -/
def Client.unread (cc : Client) : List Byte :=
  match cc.conn with
  | some conn => conn.toRead
  | none => []

/-- Client.read (`client_all.go`). Every iteration that continues takes at least the 4
length bytes off the stream, so the budget below is never used up. -/
def Client.read (cc : Client) : Outcome (LoopEnd × Client × List Goroutine) :=
  Client.readLoop (cc.unread.length / 4 + 1) cc

/-- What can happen to a server-side connection from outside its writer: the
application calls `Connection.Close()`, or a read of its reader fails with an error. -/
inductive ConnEvent where
  | Close : ConnEvent
  | readError : String → ConnEvent
  deriving DecidableEq, Repr

/-- One event on the connection at address `ptr` of the server `sc`: `Connection.Close`,
or `Server.readData` on a stream that cannot fill the buffer and reports the error. -/
def Connection.event (ptr : ConnPtr) (ev : ConnEvent) (sc : Server)
    (connection : Connection) : Outcome (Server × Connection) :=
  match ev with
  | .Close =>
    match connection.Close with
    | .panic p => .panic p
    | .ok connection => .ok (sc, connection)
  | .readError e =>
    match Server.readData sc
        { connection with conn := { connection.conn with readErr := some e } } ptr
        (connection.conn.toRead.length + 1) with
    | .panic p => .panic p
    | .ok (_, sc, connection) => .ok (sc, connection)

/-- A sequence of events on a connection, in order; a panic ends it. -/
def Connection.events (ptr : ConnPtr) :
    List ConnEvent → Server → Connection → Outcome (Server × Connection)
  | [], sc, connection => .ok (sc, connection)
  | ev :: rest, sc, connection =>
    match Connection.event ptr ev sc connection with
    | .panic p => .panic p
    | .ok (sc, connection) => Connection.events ptr rest sc connection

/-! ## Views used in the statements -/

/-- The value of a call mapped through `f`; a panic stays a panic. -/
def Outcome.map {α β : Type} (f : α → β) : Outcome α → Outcome β
  | .ok a => .ok (f a)
  | .panic p => .panic p

/-- What a caller of `Connection.Write` can observe: the returned error and the
outbound channel afterwards. -/
def Connection.writeView (r : Outcome (Option String × Connection)) :
    Outcome (Option String × Chan Message) :=
  r.map fun x => (x.1, x.2.toWrite)

/-- What a caller of `Client.Write` can observe: the returned error and the outbound
channel afterwards. -/
def Client.writeView (r : Outcome (Option String × Client)) :
    Outcome (Option String × Chan Message) :=
  r.map fun x => (x.1, x.2.toWrite)

/-- Encoder of the wire format in the words of the spec (§4.C): `totalLen = 4 + len(body)`
as 4 bytes big-endian, then `msgType` as 4 bytes big-endian, then `body`. A value is
written with its low 32 bits, the only ones 4 bytes hold. -/
def encode (msgType : Int) (body : List Byte) : List Byte :=
  putUint32 ((4 + (body.length : Int)) % 4294967296).toNat ++
    putUint32 (msgType % 4294967296).toNat ++ body

/-! ## Theorems: the Write contract -/

/-- C1: for every body and every connection or client (hence every status, every
maxMsgSize and every state of the outbound channel), `Write(0, body)` returns the error
"Message type 0 is reserved" and leaves the endpoint, its outbound channel included,
as it was. -/
theorem write_type_zero_is_reserved (connection : Connection) (cc : Client)
    (body : List Byte) :
    connection.Write 0 body = .ok (some "Message type 0 is reserved", connection) ∧
    cc.Write 0 body = .ok (some "Message type 0 is reserved", cc) := by
  constructor <;> simp [Connection.Write, Client.Write]

/-- C2: for a non-zero msgType and a body longer than the connection's maxMsgSize,
`Connection.Write` returns "Message exceeds maximum message length" whatever the status
is, and the connection afterwards is the connection before: nothing is enqueued on the
outbound channel, nothing reaches the stream, the status is unchanged. -/
theorem connection_write_oversize (connection : Connection) (msgType : Int)
    (body : List Byte) (hty : msgType ≠ 0)
    (hlen : (body.length : Int) > connection.maxMsgSize) :
    connection.Write msgType body =
      .ok (some "Message exceeds maximum message length", connection) := by
  simp [Connection.Write, hty, hlen]

/-- C2, at a concrete input: status Connected, maxMsgSize 2, a body of 3 bytes. -/
theorem connection_write_oversize_witness :
    Connection.Write { status := .Connected, maxMsgSize := 2 } 2 [0, 0, 0] =
      .ok (some "Message exceeds maximum message length",
        { status := .Connected, maxMsgSize := 2 }) :=
  connection_write_oversize { status := .Connected, maxMsgSize := 2 } 2 [0, 0, 0]
    (by decide) (by decide)

/-- C3: for a non-zero msgType and a body within maxMsgSize: when the status is
Connected (and the outbound channel has not been closed), `Write` returns nil and the
outbound channel holds exactly one more message, `Message{MsgType: msgType, Data: body}`,
behind those already queued; for every other status, whatever the state of the outbound
channel, it returns the error whose text is the status string and leaves the endpoint,
its outbound channel included, as it was. This holds for `Connection.Write` and for
`Client.Write`, and the string of NotConnected is "Not Connected". -/
theorem write_within_limit (connection : Connection) (cc : Client) (msgType : Int)
    (body : List Byte) (hty : msgType ≠ 0)
    (hlen : (body.length : Int) ≤ connection.maxMsgSize)
    (hlen2 : (body.length : Int) ≤ cc.maxMsgSize) :
    (connection.status = .Connected → connection.toWrite.closed = false →
      connection.Write msgType body =
        .ok (none, { connection with
          toWrite := { connection.toWrite with
            queue := connection.toWrite.queue ++ [{ MsgType := msgType, Data := body }] } })) ∧
    (connection.status ≠ .Connected →
      connection.Write msgType body = .ok (some connection.status.String, connection)) ∧
    (cc.status = .Connected → cc.toWrite.closed = false →
      cc.Write msgType body =
        .ok (none, { cc with
          toWrite := { cc.toWrite with
            queue := cc.toWrite.queue ++ [{ MsgType := msgType, Data := body }] } })) ∧
    (cc.status ≠ .Connected →
      cc.Write msgType body = .ok (some cc.status.String, cc)) ∧
    Status.NotConnected.String = "Not Connected" := by
  have h1 : ¬ (body.length : Int) > connection.maxMsgSize := not_lt.mpr hlen
  have h2 : ¬ (body.length : Int) > cc.maxMsgSize := not_lt.mpr hlen2
  refine ⟨?_, ?_, ?_, ?_, rfl⟩
  · intro hs hopen
    simp [Connection.Write, hty, h1, hs, Chan.send, hopen]
  · intro hs
    simp [Connection.Write, hty, h1, hs]
  · intro hs hopen2
    simp [Client.Write, hty, h2, hs, Chan.send, hopen2]
  · intro hs
    simp [Client.Write, hty, hs]

/-- C3, at concrete inputs, type 2 and a 5-byte body with maxMsgSize 1024: a Connected
connection enqueues it; a Closed connection whose outbound channel has been closed, and
a NotConnected client, return their status string and stay as they were. -/
theorem write_within_limit_witness :
    Connection.Write { status := .Connected, maxMsgSize := 1024 } 2 [0, 0, 0, 0, 0] =
      .ok (none, { status := .Connected, maxMsgSize := 1024,
                   toWrite := { queue := [{ MsgType := 2, Data := [0, 0, 0, 0, 0] }] } }) ∧
    Connection.Write { status := .Closed, maxMsgSize := 1024, toWrite := { closed := true } }
        2 [0, 0, 0, 0, 0] =
      .ok (some "Closed",
        { status := .Closed, maxMsgSize := 1024, toWrite := { closed := true } }) ∧
    Client.Write { status := .NotConnected, maxMsgSize := 1024 } 2 [0, 0, 0, 0, 0] =
      .ok (some "Not Connected", { status := .NotConnected, maxMsgSize := 1024 }) :=
  ⟨(write_within_limit { status := .Connected, maxMsgSize := 1024 }
      { status := .NotConnected, maxMsgSize := 1024 } 2 [0, 0, 0, 0, 0]
      (by decide) (by decide) (by decide)).1 rfl rfl,
   (write_within_limit
      { status := .Closed, maxMsgSize := 1024, toWrite := { closed := true } }
      { status := .NotConnected, maxMsgSize := 1024 } 2 [0, 0, 0, 0, 0]
      (by decide) (by decide) (by decide)).2.1 (by decide),
   (write_within_limit { status := .Connected, maxMsgSize := 1024 }
      { status := .NotConnected, maxMsgSize := 1024 } 2 [0, 0, 0, 0, 0]
      (by decide) (by decide) (by decide)).2.2.2.1 (by decide)⟩

/-- C4, as stated, fails: on a NotConnected endpoint with maxMsgSize 0, `Write(2, [0])`
returns "Message exceeds maximum message length" from `Connection.Write` and
"Not Connected" from `Client.Write`. -/
theorem write_symmetry_counterexample :
    (Connection.Write { status := .NotConnected, maxMsgSize := 0 } 2 [0]).map Prod.fst =
      .ok (some "Message exceeds maximum message length") ∧
    (Client.Write { status := .NotConnected, maxMsgSize := 0 } 2 [0]).map Prod.fst =
      .ok (some "Not Connected") ∧
    (Connection.Write { status := .NotConnected, maxMsgSize := 0 } 2 [0]).map Prod.fst ≠
      (Client.Write { status := .NotConnected, maxMsgSize := 0 } 2 [0]).map Prod.fst := by
  decide

/-- C4, amended: for a connection and a client with the same status, the same
maxMsgSize and the same outbound channel, `Client.Write` and `Connection.Write` return
the same result and leave the same outbound channel (so they enqueue in exactly the
same cases), unless msgType is non-zero, the status is not Connected and the body is
longer than maxMsgSize. In that one case neither enqueues anything, `Connection.Write`
returns "Message exceeds maximum message length" and `Client.Write` returns the status
string, because `Client.Write` tests the status before the length. -/
theorem write_symmetry_amended (connection : Connection) (cc : Client) (msgType : Int)
    (body : List Byte) (hst : cc.status = connection.status)
    (hmax : cc.maxMsgSize = connection.maxMsgSize)
    (hch : cc.toWrite = connection.toWrite) :
    ((msgType = 0 ∨ connection.status = .Connected ∨
        (body.length : Int) ≤ connection.maxMsgSize) →
      Client.writeView (cc.Write msgType body) =
        Connection.writeView (connection.Write msgType body)) ∧
    (msgType ≠ 0 → connection.status ≠ .Connected →
        (body.length : Int) > connection.maxMsgSize →
      connection.Write msgType body =
        .ok (some "Message exceeds maximum message length", connection) ∧
      cc.Write msgType body = .ok (some connection.status.String, cc)) := by
  constructor
  · intro h
    by_cases hty : msgType = 0
    · simp [Client.writeView, Connection.writeView, Outcome.map, Client.Write,
        Connection.Write, hty, hch]
    · by_cases hs : connection.status = .Connected
      · by_cases hl : (body.length : Int) > connection.maxMsgSize
        · simp [Client.writeView, Connection.writeView, Outcome.map, Client.Write,
            Connection.Write, hty, hst, hmax, hch, hs, hl]
        · by_cases hc : connection.toWrite.closed = true
          · simp [Client.writeView, Connection.writeView, Outcome.map, Client.Write,
              Connection.Write, hty, hst, hmax, hch, hs, hl, Chan.send, hc]
          · simp [Client.writeView, Connection.writeView, Outcome.map, Client.Write,
              Connection.Write, hty, hst, hmax, hch, hs, hl, Chan.send, hc]
      · have hl : ¬ (body.length : Int) > connection.maxMsgSize := by
          rcases h with h | h | h
          · exact absurd h hty
          · exact absurd h hs
          · exact not_lt.mpr h
        simp [Client.writeView, Connection.writeView, Outcome.map, Client.Write,
          Connection.Write, hty, hst, hmax, hch, hs, hl]
  · intro hty hs hl
    constructor
    · simp [Connection.Write, hty, hl]
    · simp [Client.Write, hty, hst, hs]

/-- C4 amended, at concrete inputs: a type-3 message of 2 bytes on Connected endpoints
with maxMsgSize 8 (both enqueue it and return nil), and the diverging case of a
NotConnected pair with maxMsgSize 0. -/
theorem write_symmetry_amended_witness :
    Client.writeView (Client.Write { status := .Connected, maxMsgSize := 8 } 3 [1, 2]) =
      Connection.writeView
        (Connection.Write { status := .Connected, maxMsgSize := 8 } 3 [1, 2]) ∧
    Connection.Write { status := .NotConnected, maxMsgSize := 0 } 2 [0] =
      .ok (some "Message exceeds maximum message length",
        { status := .NotConnected, maxMsgSize := 0 }) ∧
    Client.Write { status := .NotConnected, maxMsgSize := 0 } 2 [0] =
      .ok (some "Not Connected", { status := .NotConnected, maxMsgSize := 0 }) :=
  ⟨(write_symmetry_amended { status := .Connected, maxMsgSize := 8 }
      { status := .Connected, maxMsgSize := 8 } 3 [1, 2] rfl rfl rfl).1
      (Or.inr (Or.inl rfl)),
   (write_symmetry_amended { status := .NotConnected, maxMsgSize := 0 }
      { status := .NotConnected, maxMsgSize := 0 } 2 [0] rfl rfl rfl).2
      (by decide) (by decide) (by decide)⟩

/-- C7, as stated, fails: on a Connected endpoint with maxMsgSize 1024, `Write(-1, [])`
and `Write(-2, [])` return nil and put the message on the outbound channel, for
`Connection.Write` and for `Client.Write`. -/
theorem write_synthetic_type_counterexample :
    Connection.Write { status := .Connected, maxMsgSize := 1024 } (-1) [] =
      .ok (none, { status := .Connected, maxMsgSize := 1024,
                   toWrite := { queue := [{ MsgType := -1, Data := [] }] } }) ∧
    Client.Write { status := .Connected, maxMsgSize := 1024 } (-2) [] =
      .ok (none, { status := .Connected, maxMsgSize := 1024,
                   toWrite := { queue := [{ MsgType := -2, Data := [] }] } }) := by
  decide

/-- C7, amended: for msgType -1 or -2, `Write` (of a connection and of a client) puts
nothing on the outbound channel when the status is not Connected or the body is longer
than maxMsgSize: it returns an error and leaves the endpoint as it was. When the status
is Connected, the body is within maxMsgSize and the outbound channel is not closed, it
returns nil and enqueues `Message{MsgType: msgType, Data: body}`, as for any other
non-zero type. -/
theorem write_synthetic_type_amended (connection : Connection) (cc : Client)
    (msgType : Int) (body : List Byte) (hty : msgType = -1 ∨ msgType = -2) :
    ((connection.status ≠ .Connected ∨ (body.length : Int) > connection.maxMsgSize) →
      ∃ e, connection.Write msgType body = .ok (some e, connection)) ∧
    ((cc.status ≠ .Connected ∨ (body.length : Int) > cc.maxMsgSize) →
      ∃ e, cc.Write msgType body = .ok (some e, cc)) ∧
    (connection.status = .Connected → (body.length : Int) ≤ connection.maxMsgSize →
      connection.toWrite.closed = false →
      connection.Write msgType body =
        .ok (none, { connection with
          toWrite := { connection.toWrite with
            queue := connection.toWrite.queue ++ [{ MsgType := msgType, Data := body }] } })) ∧
    (cc.status = .Connected → (body.length : Int) ≤ cc.maxMsgSize →
      cc.toWrite.closed = false →
      cc.Write msgType body =
        .ok (none, { cc with
          toWrite := { cc.toWrite with
            queue := cc.toWrite.queue ++ [{ MsgType := msgType, Data := body }] } })) := by
  have h0 : msgType ≠ 0 := by rcases hty with h | h <;> simp [h]
  refine ⟨?_, ?_, ?_, ?_⟩
  · intro h
    by_cases hl : (body.length : Int) > connection.maxMsgSize
    · exact ⟨"Message exceeds maximum message length", by simp [Connection.Write, h0, hl]⟩
    · have hs : connection.status ≠ .Connected := h.resolve_right hl
      exact ⟨connection.status.String, by simp [Connection.Write, h0, hl, hs]⟩
  · intro h
    by_cases hs : cc.status = .Connected
    · have hl : (body.length : Int) > cc.maxMsgSize := h.resolve_left (not_not.mpr hs)
      exact ⟨"Message exceeds maximum message length", by simp [Client.Write, h0, hl, hs]⟩
    · exact ⟨cc.status.String, by simp [Client.Write, h0, hs]⟩
  · intro hs hl hopen
    have hl' : ¬ (body.length : Int) > connection.maxMsgSize := not_lt.mpr hl
    simp [Connection.Write, h0, hl', hs, Chan.send, hopen]
  · intro hs hl hopen
    have hl' : ¬ (body.length : Int) > cc.maxMsgSize := not_lt.mpr hl
    simp [Client.Write, h0, hl', hs, Chan.send, hopen]

/-- C7 amended, at a concrete input: type -1 with a 1-byte body is refused on a
Closing connection and enqueued by a Connected client. -/
theorem write_synthetic_type_amended_witness :
    (∃ e, Connection.Write { status := .Closing, maxMsgSize := 1024 } (-1) [7] =
      .ok (some e, { status := .Closing, maxMsgSize := 1024 })) ∧
    Client.Write { status := .Connected, maxMsgSize := 1024 } (-1) [7] =
      .ok (none, { status := .Connected, maxMsgSize := 1024,
                   toWrite := { queue := [{ MsgType := -1, Data := [7] }] } }) :=
  have h := write_synthetic_type_amended { status := .Closing, maxMsgSize := 1024 }
    { status := .Connected, maxMsgSize := 1024 } (-1) [7] (Or.inl rfl)
  ⟨h.1 (Or.inl (by decide)), h.2.2.2 rfl (by decide) rfl⟩

/-! ## Theorems: start-up -/

/-- C9, as stated, fails for the nil config: `StartServer("", nil)` (whatever the
built-in maxMsgSize is) and `StartClient("", nil)` return "config is required", not
"ipcName cannot be an empty string". -/
theorem start_empty_name_counterexample :
    (∀ maxMsgSize : Nat, (StartServer maxMsgSize "" none).err = some "config is required") ∧
    (StartClient "" none).err = some "config is required" ∧
    (StartClient "" none).err ≠ some "ipcName cannot be an empty string" := by
  refine ⟨fun _ => rfl, rfl, by decide⟩

/-- C9, amended: for every non-nil config, `StartServer("", config)` and
`StartClient("", config)` return the error "ipcName cannot be an empty string", no
endpoint, and start no goroutine. -/
theorem start_empty_name_amended (maxMsgSize : Nat) (sconfig : ServerConfig)
    (cconfig : ClientConfig) :
    StartServer maxMsgSize "" (some sconfig) =
      { endpoint := none, err := some "ipcName cannot be an empty string", started := [] } ∧
    StartClient "" (some cconfig) =
      { endpoint := none, err := some "ipcName cannot be an empty string", started := [] } := by
  constructor <;> simp [StartServer, StartClient, checkIpcName]

/-- C10: for every ipcName (and every value of the built-in maxMsgSize),
`StartServer(ipcName, nil)` and `StartClient(ipcName, nil)` return the nil endpoint and
the error "config is required" and start no goroutine. -/
theorem start_nil_config (maxMsgSize : Nat) (ipcName : String) :
    StartServer maxMsgSize ipcName none =
      { endpoint := none, err := some "config is required", started := [] } ∧
    StartClient ipcName none =
      { endpoint := none, err := some "config is required", started := [] } :=
  ⟨rfl, rfl⟩

/-! ## Theorems: framing -/

theorem putUint32_length (v : Nat) : (putUint32 v).length = 4 := rfl

theorem intToBytes_length (n : Int) : (intToBytes n).length = 4 := rfl

/-- Reading back what `PutUint32` stored gives the value, for a value that fits 32
bits; bytes after the first four do not matter. -/
theorem readUint32_putUint32 (v : Nat) (rest : List Byte) (hv : v < 4294967296) :
    readUint32 (putUint32 v ++ rest) = v := by
  simp only [putUint32, readUint32, List.cons_append, List.nil_append, Fin.ofNat]
  omega

theorem bytesToInt_intToBytes (n : Int) (rest : List Byte) :
    bytesToInt (intToBytes n ++ rest) = n % 4294967296 := by
  have h0 : (0 : Int) ≤ n % 4294967296 := Int.emod_nonneg _ (by decide)
  have h1 : n % 4294967296 < 4294967296 := Int.emod_lt_of_pos _ (by decide)
  have hv : (n % 4294967296).toNat < 4294967296 := by omega
  simp only [bytesToInt, intToBytes, readUint32_putUint32 _ _ hv]
  omega

theorem encode_eq (msgType : Int) (body : List Byte) :
    encode msgType body =
      intToBytes (4 + (body.length : Int)) ++ (intToBytes msgType ++ body) := by
  simp [encode, intToBytes]

/-- One pass of the writer loop on a stream that accepts the write appends the encoded
frame of the message. -/
theorem writeFrame_written (conn : Conn) (m : Message) (hw : conn.writeErr = none) :
    writeFrame conn m =
      { conn with written := conn.written ++ encode m.MsgType m.Data } := by
  have hlen : ((intToBytes m.MsgType ++ m.Data).length : Int) = 4 + (m.Data.length : Int) := by
    simp [intToBytes_length]
  simp only [writeFrame, Conn.Write, hw, hlen, encode_eq]

theorem writeLoop_written (ms : List Message) (conn : Conn) (hw : conn.writeErr = none) :
    writeLoop conn ms =
      { conn with
        written := conn.written ++ ms.flatMap fun m => encode m.MsgType m.Data } := by
  induction ms generalizing conn with
  | nil => simp [writeLoop]
  | cons m rest ih =>
    have hw2 : (writeFrame conn m).writeErr = none := by
      rw [writeFrame_written conn m hw]; exact hw
    rw [writeLoop, ih _ hw2, writeFrame_written conn m hw]
    simp [List.flatMap_cons, List.append_assoc]

/-- C6: on a stream that accepts writes, the writer worker (`Server.write` on a
connection, `Client.write` on a client) appends to the stream, for the messages it
dequeues and in their order, exactly the frame of each one: 4 bytes holding
`4 + len(body)` big-endian, 4 bytes holding `msgType` big-endian, then `body`. A frame
is `8 + len(body)` bytes long, its first 4 bytes read back as `4 + len(body)` and its
next 4 as `msgType` (each modulo `2^32`), and the rest is `body`. -/
theorem writer_flushes_encoded_frames (connection : Connection) (cc : Client) (conn : Conn)
    (hs : connection.conn.writeErr = none) (hc : cc.conn = some conn)
    (hcw : conn.writeErr = none) :
    (Server.write connection).conn.written =
      connection.conn.written ++
        connection.toWrite.queue.flatMap (fun m => encode m.MsgType m.Data) ∧
    (∃ cc1, Client.write cc = .ok cc1 ∧
      cc1.conn.map Conn.written =
        some (conn.written ++ cc.toWrite.queue.flatMap (fun m => encode m.MsgType m.Data))) ∧
    (∀ (msgType : Int) (body : List Byte),
      (encode msgType body).length = 8 + body.length ∧
      (readUint32 (encode msgType body) : Int) = (4 + (body.length : Int)) % 4294967296 ∧
      (readUint32 ((encode msgType body).drop 4) : Int) = msgType % 4294967296 ∧
      (encode msgType body).drop 8 = body) := by
  refine ⟨?_, ?_, ?_⟩
  · simp [Server.write, writeLoop_written _ _ hs]
  · cases hq : cc.toWrite.queue with
    | nil => exact ⟨cc, by simp [Client.write, hq], by simp [hc]⟩
    | cons m rest =>
      refine ⟨{ cc with
                conn := some (writeLoop conn (m :: rest))
                toWrite := { cc.toWrite with queue := [] } },
              by simp [Client.write, hq, hc], ?_⟩
      simp [writeLoop_written _ _ hcw]
  · intro msgType body
    refine ⟨?_, ?_, ?_, ?_⟩
    · simp [encode_eq, intToBytes_length]; omega
    · have := bytesToInt_intToBytes (4 + (body.length : Int)) (intToBytes msgType ++ body)
      simpa [bytesToInt, encode_eq] using this
    · have := bytesToInt_intToBytes msgType body
      simpa [bytesToInt, encode_eq, intToBytes, putUint32] using this
    · simp [encode_eq, intToBytes, putUint32]

/-- C6, at a concrete input: the message of type 5 with body `[1, 2, 3]`, written by
the server worker and by the client worker on a fresh stream. -/
theorem writer_flushes_encoded_frames_witness :
    (Server.write
        { toWrite := { queue := [{ MsgType := 5, Data := [1, 2, 3] }] } }).conn.written =
      [0, 0, 0, 7, 0, 0, 0, 5, 1, 2, 3] ∧
    (∃ cc1, Client.write
        { conn := some {}, toWrite := { queue := [{ MsgType := 5, Data := [1, 2, 3] }] } } =
          .ok cc1 ∧
      cc1.conn.map Conn.written = some [0, 0, 0, 7, 0, 0, 0, 5, 1, 2, 3]) :=
  have h := writer_flushes_encoded_frames
    { toWrite := { queue := [{ MsgType := 5, Data := [1, 2, 3] }] } }
    { conn := some {}, toWrite := { queue := [{ MsgType := 5, Data := [1, 2, 3] }] } }
    {} rfl rfl rfl
  ⟨h.1, h.2.1⟩

/-! ## Theorems: the reader on an encoded frame -/

theorem Conn.Read_append (c : Conn) (a b : List Byte) (n : Nat) (hn : a.length = n)
    (h : c.toRead = a ++ b) :
    c.Read n = (.data a, { c with toRead := b }) := by
  subst hn
  simp [Conn.Read, h]

theorem Server.readData_append (sc : Server) (connection : Connection) (ptr : ConnPtr)
    (a b : List Byte) (n : Nat) (hn : a.length = n) (h : connection.conn.toRead = a ++ b) :
    Server.readData sc connection ptr n =
      .ok (.filled a, sc, { connection with conn := { connection.conn with toRead := b } }) := by
  simp [Server.readData, Conn.Read_append connection.conn a b n hn h]

/-- One iteration of the server reader on a stream that starts with an encoded frame
whose length field does not wrap: a frame whose type field is zero is dropped, any other
is sent to the inbound channel unless the server is Closed, and the loop goes on behind
the frame. -/
theorem Server.readLoop_encode (ptr : ConnPtr) (fuel : Nat) (sc : Server)
    (connection : Connection) (msgType : Int) (body rest : List Byte)
    (hfit : 4 + (body.length : Int) < 4294967296)
    (h : connection.conn.toRead = encode msgType body ++ rest) :
    Server.readLoop ptr (fuel + 1) sc connection =
      if msgType % 4294967296 = 0 then
        Server.readLoop ptr fuel sc
          { connection with conn := { connection.conn with toRead := rest } }
      else if sc.status ≠ .Closed then
        match sc.recieved.send
            { Connection := some ptr, Data := body, MsgType := msgType % 4294967296 } with
        | .panic p => .panic p
        | .ok ch =>
          Server.readLoop ptr fuel { sc with recieved := ch }
            { connection with conn := { connection.conn with toRead := rest } }
      else
        Server.readLoop ptr fuel sc
          { connection with conn := { connection.conn with toRead := rest } } := by
  have h1 : connection.conn.toRead =
      intToBytes (4 + (body.length : Int)) ++ ((intToBytes msgType ++ body) ++ rest) := by
    rw [h, encode_eq]; simp [List.append_assoc]
  have hmLen : bytesToInt (intToBytes (4 + (body.length : Int))) = 4 + (body.length : Int) := by
    have := bytesToInt_intToBytes (4 + (body.length : Int)) []
    rw [List.append_nil] at this
    rw [this]
    omega
  have hnat : (4 + (body.length : Int)).toNat = (intToBytes msgType ++ body).length := by
    simp [intToBytes_length]
    omega
  have htake : (intToBytes msgType ++ body).take 4 = intToBytes msgType := by
    simp [intToBytes, putUint32]
  have hdrop : (intToBytes msgType ++ body).drop 4 = body := by
    simp [intToBytes, putUint32]
  have hty : bytesToInt (intToBytes msgType) = msgType % 4294967296 := by
    have := bytesToInt_intToBytes msgType []
    rwa [List.append_nil] at this
  have hl4 : ¬ (intToBytes msgType ++ body).length < 4 := by
    simp [intToBytes_length]
  rw [Server.readLoop,
    Server.readData_append sc connection ptr _ _ 4 (intToBytes_length _) h1]
  simp only [hmLen]
  rw [Server.readData_append sc _ ptr (intToBytes msgType ++ body) rest _ hnat.symm rfl]
  simp only [hl4, if_false, htake, hdrop, hty]

/-- On a stream that is used up and still open the server reader waits. -/
theorem Server.readLoop_idle (ptr : ConnPtr) (fuel : Nat) (sc : Server)
    (connection : Connection) (h : connection.conn.toRead = [])
    (hopen : connection.conn.readErr = none) :
    Server.readLoop ptr (fuel + 1) sc connection = .ok (.waiting, sc, connection) := by
  simp [Server.readLoop, Server.readData, Conn.Read, h, hopen]

/-- A read that fills its buffer takes exactly that many bytes off the stream. -/
theorem Server.readData_filled (sc sc1 : Server) (connection connection1 : Connection)
    (ptr : ConnPtr) (n : Nat) (buff : List Byte)
    (h : Server.readData sc connection ptr n = .ok (.filled buff, sc1, connection1)) :
    connection1.conn.toRead.length + n = connection.conn.toRead.length := by
  unfold Server.readData at h
  by_cases hn : n ≤ connection.conn.toRead.length
  · simp only [Conn.Read, hn, if_true] at h
    injection h with h
    injection h with _ h
    injection h with _ h
    subst h
    simp
    omega
  · simp only [Conn.Read, hn, if_false] at h
    cases he : connection.conn.readErr with
    | none => simp [he] at h
    | some e =>
      simp only [he] at h
      split at h
      · cases h
      · split at h
        · cases h
        · split at h
          · cases h
          · cases h

/-- The reader loop does not use up a budget of more than a quarter of the unread
bytes: it ends by stopping, waiting or panicking. -/
theorem Server.readLoop_budget (ptr : ConnPtr) (fuel : Nat) (sc : Server)
    (connection : Connection) (hfuel : connection.conn.toRead.length < 4 * fuel)
    (r : LoopEnd × Server × Connection)
    (h : Server.readLoop ptr fuel sc connection = .ok r) : r.1 ≠ .more := by
  induction fuel generalizing sc connection with
  | zero => omega
  | succ k ih =>
    rw [Server.readLoop] at h
    split at h
    · cases h
    · cases h; simp
    · cases h; simp
    · rename_i bLen sc1 c1 h1
      have hl1 := Server.readData_filled _ _ _ _ _ _ _ h1
      simp only at h
      split at h
      · cases h
      · cases h; simp
      · cases h; simp
      · rename_i msgRecvd sc2 c2 h2
        have hl2 := Server.readData_filled _ _ _ _ _ _ _ h2
        have hk : c2.conn.toRead.length < 4 * k := by omega
        split at h
        · cases h
        · split at h
          · exact ih _ _ hk h
          · split at h
            · split at h
              · cases h
              · exact ih _ _ hk h
            · exact ih _ _ hk h

/-- Server.read always ends by stopping, waiting or panicking: the budget of the model
is never the reason it ends. -/
theorem Server.read_total (sc : Server) (connection : Connection) (ptr : ConnPtr)
    (r : LoopEnd × Server × Connection)
    (h : Server.read sc connection ptr = .ok r) : r.1 ≠ .more :=
  Server.readLoop_budget ptr _ sc connection (by omega) r h

/-- The signed and the unsigned reading of a 4-byte field agree on the encoding of
every value from 0 up to `2^31 - 1`, and give that value. -/
theorem readInt32_intToBytes (n : Int) (h0 : 0 ≤ n) (h1 : n < 2147483648) :
    readInt32 (intToBytes n) = n ∧ bytesToInt (intToBytes n) = n := by
  have hb : bytesToInt (intToBytes n) = n := by
    have := bytesToInt_intToBytes n []
    rw [List.append_nil] at this
    rw [this]
    omega
  refine ⟨?_, hb⟩
  have hu : (readUint32 (intToBytes n) : Int) = n := hb
  have hlt : readUint32 (intToBytes n) < 2147483648 := by omega
  simp only [readInt32, hlt, if_true, hu]

/-- C5, as stated, fails. A Connected client with maxMsgSize 1024 accepts
`Write(4294967296, [])`; its writer emits the frame `[0,0,0,4, 0,0,0,0]`, whose type
field is zero (under the unsigned and under the signed reading of the field), and the
server reader drops that frame: nothing is delivered. -/
theorem write_then_read_counterexample :
    Client.Write { status := .Connected, maxMsgSize := 1024, conn := some {} }
        4294967296 [] =
      .ok (none, { status := .Connected, maxMsgSize := 1024, conn := some {},
                   toWrite := { queue := [{ MsgType := 4294967296, Data := [] }] } }) ∧
    Client.write { status := .Connected, maxMsgSize := 1024, conn := some {},
                   toWrite := { queue := [{ MsgType := 4294967296, Data := [] }] } } =
      .ok { status := .Connected, maxMsgSize := 1024,
            conn := some { written := [0, 0, 0, 4, 0, 0, 0, 0] } } ∧
    bytesToInt [0, 0, 0, 0] = 0 ∧ readInt32 [0, 0, 0, 0] = 0 ∧
    bytesToInt [0, 0, 0, 4] = 4 ∧ readInt32 [0, 0, 0, 4] = 4 ∧
    Server.read { status := .Listening }
        { status := .Connected, conn := { toRead := [0, 0, 0, 4, 0, 0, 0, 0] } } 1 =
      .ok (.waiting, { status := .Listening }, { status := .Connected }) := by
  decide

/-- C5, amended: for every msgType with `0 < msgType < 2^31` and every body with
`len(body) <= maxMsgSize` and `4 + len(body) < 2^31`, on a Connected client whose
outbound channel is open and empty and whose stream accepts writes and has nothing
written yet: `Client.Write` accepts the message, the client writer emits exactly its
frame, and the server reader of the peer (server not Closed, inbound channel open, the
stream holding exactly the emitted bytes and still open, each read filling its buffer)
delivers exactly one message more to the inbound channel, whose MsgType is msgType and
whose Data is body, and then waits for the next frame. In this range the length field
and the type field of the frame read the same signed and unsigned. -/
theorem write_then_read_amended (cc : Client) (conn : Conn) (sc : Server)
    (connection : Connection) (ptr : ConnPtr) (msgType : Int) (body : List Byte)
    (hpos : 0 < msgType) (hty : msgType < 2147483648)
    (hlen : (body.length : Int) ≤ cc.maxMsgSize)
    (hfit : 4 + (body.length : Int) < 2147483648)
    (hst : cc.status = .Connected) (hq : cc.toWrite = {})
    (hconn : cc.conn = some conn) (hw : conn.writeErr = none) (hwr : conn.written = [])
    (hsc : sc.status ≠ .Closed) (hrc : sc.recieved.closed = false) :
    cc.Write msgType body =
      .ok (none, { cc with toWrite := { queue := [{ MsgType := msgType, Data := body }] } }) ∧
    Client.write { cc with toWrite := { queue := [{ MsgType := msgType, Data := body }] } } =
      .ok { cc with conn := some { conn with written := encode msgType body }
                    toWrite := { queue := [] } } ∧
    Server.read sc
        { connection with
          conn := { connection.conn with toRead := encode msgType body, readErr := none } }
        ptr =
      .ok (.waiting,
        { sc with
          recieved := { sc.recieved with
            queue := sc.recieved.queue ++
              [{ Connection := some ptr, Data := body, MsgType := msgType }] } },
        { connection with
          conn := { connection.conn with toRead := [], readErr := none } }) ∧
    (readInt32 (intToBytes msgType) = msgType ∧ bytesToInt (intToBytes msgType) = msgType) ∧
    (readInt32 (intToBytes (4 + (body.length : Int))) = 4 + (body.length : Int) ∧
      bytesToInt (intToBytes (4 + (body.length : Int))) = 4 + (body.length : Int)) := by
  have h0 : msgType ≠ 0 := by omega
  have hl : ¬ (body.length : Int) > cc.maxMsgSize := not_lt.mpr hlen
  have hty2 : msgType < 4294967296 := by omega
  have hfit2 : 4 + (body.length : Int) < 4294967296 := by omega
  have hmod : msgType % 4294967296 = msgType := Int.emod_eq_of_lt (le_of_lt hpos) hty2
  refine ⟨?_, ?_, ?_, readInt32_intToBytes msgType (le_of_lt hpos) hty,
    readInt32_intToBytes _ (by omega) hfit⟩
  · simp [Client.Write, h0, hst, hl, Chan.send, hq]
  · simp [Client.write, hconn, writeLoop, writeFrame_written _ _ hw, hwr]
  · have hlen8 : (encode msgType body).length = 8 + body.length := by
      rw [encode_eq]
      simp [intToBytes_length]
      omega
    have hfuel : (encode msgType body).length / 4 + 1 = (body.length / 4) + 1 + 1 + 1 := by
      rw [hlen8]; omega
    have hne : ¬ msgType % 4294967296 = 0 := by rw [hmod]; exact h0
    simp only [Server.read]
    rw [hfuel, Server.readLoop_encode ptr _ sc _ msgType body [] hfit2 (by simp),
      if_neg hne, if_pos hsc]
    simp only [Chan.send, hrc, Bool.false_eq_true, if_false, hmod]
    exact Server.readLoop_idle ptr (body.length / 4 + 1) _ _ rfl rfl

/-- C5 amended, at a concrete input: type 5 and body `[1, 2, 3]` from a Connected client
with maxMsgSize 1024 to a Listening server. -/
theorem write_then_read_amended_witness :
    Client.Write { status := .Connected, maxMsgSize := 1024, conn := some {} } 5 [1, 2, 3] =
      .ok (none, { status := .Connected, maxMsgSize := 1024, conn := some {},
                   toWrite := { queue := [{ MsgType := 5, Data := [1, 2, 3] }] } }) ∧
    Client.write { status := .Connected, maxMsgSize := 1024, conn := some {},
                   toWrite := { queue := [{ MsgType := 5, Data := [1, 2, 3] }] } } =
      .ok { status := .Connected, maxMsgSize := 1024,
            conn := some { written := [0, 0, 0, 7, 0, 0, 0, 5, 1, 2, 3] } } ∧
    Server.read { status := .Listening }
        { conn := { toRead := [0, 0, 0, 7, 0, 0, 0, 5, 1, 2, 3] } } 1 =
      .ok (.waiting,
        { status := .Listening,
          recieved := { queue := [{ Connection := some 1, Data := [1, 2, 3],
                                    MsgType := 5 }] } },
        { conn := { toRead := [] } }) :=
  have h := write_then_read_amended
    { status := .Connected, maxMsgSize := 1024, conn := some {} } {}
    { status := .Listening } {} 1 5 [1, 2, 3] (by decide) (by decide) (by decide)
    (by decide) rfl rfl rfl rfl rfl (by decide) rfl
  ⟨h.1, h.2.1, h.2.2.1⟩

/-! ## Theorems: the size limit announced by the handshake -/

/-- The server `StartServer` builds for a non-empty name and a config. -/
theorem StartServer_eq (maxMsgSize : Nat) (ipcName : String) (config : ServerConfig)
    (hname : ipcName.length ≠ 0) :
    StartServer maxMsgSize ipcName (some config) =
      { endpoint := some
          { name := ipcName
            status := .NotConnected
            recieved := {}
            unMask := if config.UseUnmask then config.Unmask else -1
            pskConfig := config.PskConfig
            socketDirectory := config.SocketDirectory
            securityDescriptor := config.SecurityDescriptor
            maxMsgSize :=
              if config.MaxMsgSize < 1024 then (maxMsgSize : Int) else config.MaxMsgSize }
        err := none
        started := [.startServer] } := by
  simp only [StartServer, checkIpcName, if_neg hname]
  by_cases h1 : config.MaxMsgSize < 1024 <;> by_cases h2 : config.UseUnmask = true <;>
    simp [h1, h2]

/-- The handshake of the server on a fresh stream that accepts the write and on which
the client answers `0`: the record written is the version, three zero bytes and the
package constant `maxMsgSize`, whatever the `maxMsgSize` of the connection is. -/
theorem Server.handshake_record (version : Byte) (maxMsgSize : Nat)
    (connection : Connection) (rest : List Byte) (hw : connection.conn.writeErr = none)
    (hreply : connection.conn.toRead = 0 :: rest) :
    Server.handshake version maxMsgSize connection =
      (.returned none,
        { connection with
          conn := { connection.conn with
            written := connection.conn.written ++ ([version, 0, 0, 0] ++ putUint32 maxMsgSize)
            toRead := rest } }) := by
  simp [Server.handshake, Conn.Write, Conn.Read, hw, hreply]

/-- C8, the code at the failing input: for every value of the built-in `maxMsgSize` (a
`uint32`) and every config with `MaxMsgSize >= 1024`, the server `sc` that `StartServer`
returns keeps `config.MaxMsgSize` as its maxMsgSize and the accept loop gives it to the
`Connection`, yet the 8-byte record `Server.handshake` sends carries the built-in
`maxMsgSize` in bytes 4..8, and `Client.handshake`, reading that record, sets the
client's maxMsgSize to the built-in value. The two peers therefore hold different limits
whenever `config.MaxMsgSize` is at least 1024 and differs from the built-in value. -/
theorem handshake_announces_builtin_maxMsgSize (version : Byte) (maxMsgSize : Nat)
    (ipcName : String) (config : ServerConfig) (sc : Server) (conn : Conn) (ptr : ConnPtr)
    (cc : Client) (cconn : Conn)
    (hstart : StartServer maxMsgSize ipcName (some config) =
      { endpoint := some sc, err := none, started := [.startServer] })
    (hmax : maxMsgSize < 4294967296) (hcfg : 1024 ≤ config.MaxMsgSize)
    (hw : conn.writeErr = none) (hwr : conn.written = []) (hreply : conn.toRead = [0])
    (hcc : cc.conn = some cconn) (hcw : cconn.writeErr = none)
    (hrecv : cconn.toRead = [version, 0, 0, 0] ++ putUint32 maxMsgSize) :
    sc.maxMsgSize = config.MaxMsgSize ∧
    Server.acceptLoop version maxMsgSize sc conn ptr =
      .ok (.returned [.serverRead, .serverWrite],
        { sc with
          recieved := { sc.recieved with
            queue := sc.recieved.queue ++
              [{ MsgType := -2, Connection := some ptr, Status := .Connecting },
               { MsgType := -2, Connection := some ptr, Status := .Connected }] } },
        { maxMsgSize := config.MaxMsgSize
          conn := { conn with
            written := [version, 0, 0, 0] ++ putUint32 maxMsgSize, toRead := [] }
          status := .Connected
          toWrite := {} }) ∧
    readUint32 (([version, 0, 0, 0] ++ putUint32 maxMsgSize).drop 4) = maxMsgSize ∧
    Client.handshake version cc =
      .ok (.returned none,
        { cc with
          maxMsgSize := (maxMsgSize : Int)
          conn := some { cconn with toRead := [], written := cconn.written ++ [0] } }) := by
  have hlt : ¬ config.MaxMsgSize < 1024 := not_lt.mpr hcfg
  have hrd : readUint32 (putUint32 maxMsgSize) = maxMsgSize := by
    have := readUint32_putUint32 maxMsgSize [] hmax
    rwa [List.append_nil] at this
  have hname : ipcName.length ≠ 0 := by
    intro h0
    simp [StartServer, checkIpcName, h0] at hstart
  rw [StartServer_eq maxMsgSize ipcName config hname] at hstart
  have hsc : sc =
      { name := ipcName
        status := .NotConnected
        recieved := {}
        unMask := if config.UseUnmask then config.Unmask else -1
        pskConfig := config.PskConfig
        socketDirectory := config.SocketDirectory
        securityDescriptor := config.SecurityDescriptor
        maxMsgSize :=
          if config.MaxMsgSize < 1024 then (maxMsgSize : Int) else config.MaxMsgSize } := by
    have := congrArg Started.endpoint hstart
    simpa using this.symm
  have hmaxsc : sc.maxMsgSize = config.MaxMsgSize := by rw [hsc]; simp [hlt]
  have hrq : sc.recieved = {} := by rw [hsc]
  refine ⟨hmaxsc, ?_, ?_, ?_⟩
  · simp only [Server.acceptLoop, Chan.send, hrq, Bool.false_eq_true, if_false]
    rw [Server.handshake_record version maxMsgSize _ []
      (by simpa [Server.newConnection] using hw)
      (by simpa [Server.newConnection] using hreply)]
    simp [Server.newConnection, hwr, hmaxsc]
  · simpa using hrd
  · simp only [Client.handshake, hcc, Conn.Read, hrecv]
    simp only [List.length_append, List.length_cons, List.length_nil, putUint32_length,
      Client.handshakeSendReply, Conn.Write, hcw]
    simp [putUint32]
    simpa [putUint32] using hrd

/-- C8 at a concrete input: version 2, a built-in maxMsgSize of 3145728 and
`ServerConfig{MaxMsgSize: 2048}` for the name "t1". The connection enforces 2048, the
record carries `[0, 48, 0, 0]`, that is 3145728, and the client adopts 3145728. -/
theorem handshake_announces_builtin_maxMsgSize_witness :
    ({ name := "t1", unMask := -1, maxMsgSize := 2048 } : Server).maxMsgSize = 2048 ∧
    Server.acceptLoop 2 3145728 { name := "t1", unMask := -1, maxMsgSize := 2048 }
        { toRead := [0] } 7 =
      .ok (.returned [.serverRead, .serverWrite],
        { name := "t1", unMask := -1, maxMsgSize := 2048,
          recieved := { queue :=
            [{ MsgType := -2, Connection := some 7, Status := .Connecting },
             { MsgType := -2, Connection := some 7, Status := .Connected }] } },
        { maxMsgSize := 2048
          conn := { written := [2, 0, 0, 0, 0, 48, 0, 0], toRead := [] }
          status := .Connected
          toWrite := {} }) ∧
    readUint32 (([2, 0, 0, 0, 0, 48, 0, 0] : List Byte).drop 4) = 3145728 ∧
    Client.handshake 2 { conn := some { toRead := [2, 0, 0, 0, 0, 48, 0, 0] } } =
      .ok (.returned none,
        { maxMsgSize := 3145728, conn := some { toRead := [], written := [0] } }) :=
  handshake_announces_builtin_maxMsgSize 2 3145728 "t1" { MaxMsgSize := 2048 }
    { name := "t1", unMask := -1, maxMsgSize := 2048 } { toRead := [0] } 7
    { conn := some { toRead := [2, 0, 0, 0, 0, 48, 0, 0] } }
    { toRead := [2, 0, 0, 0, 0, 48, 0, 0] }
    (by decide) (by decide) (by decide) rfl rfl rfl rfl rfl (by decide)

/-! ## Theorems: the size limit of the server -/

/-- C11: for every non-nil config and non-empty name, `StartServer` returns a server and
the nil error; the server's maxMsgSize is the built-in `maxMsgSize` when
`config.MaxMsgSize < 1024` and `config.MaxMsgSize` itself when `config.MaxMsgSize >= 1024`;
the `Connection` the accept loop builds for any accepted stream carries that value, and
`Connection.Write` on it refuses every body longer than that value. -/
theorem server_effective_maxMsgSize (maxMsgSize : Nat) (ipcName : String)
    (config : ServerConfig) (hname : ipcName.length ≠ 0) :
    ∃ sc : Server,
      StartServer maxMsgSize ipcName (some config) =
        { endpoint := some sc, err := none, started := [.startServer] } ∧
      (config.MaxMsgSize < 1024 → sc.maxMsgSize = (maxMsgSize : Int)) ∧
      (1024 ≤ config.MaxMsgSize → sc.maxMsgSize = config.MaxMsgSize) ∧
      (∀ conn : Conn, (sc.newConnection conn).maxMsgSize = sc.maxMsgSize) ∧
      (∀ (conn : Conn) (connection : Connection) (msgType : Int) (body : List Byte),
        connection.maxMsgSize = (sc.newConnection conn).maxMsgSize → msgType ≠ 0 →
        (body.length : Int) > sc.maxMsgSize →
        connection.Write msgType body =
          .ok (some "Message exceeds maximum message length", connection)) := by
  refine ⟨_, StartServer_eq maxMsgSize ipcName config hname, ?_, ?_, ?_, ?_⟩
  · intro h; simp [h]
  · intro h; simp [not_lt.mpr h]
  · intro conn; rfl
  · intro conn connection msgType body hc hty hlen
    have hc2 : connection.maxMsgSize =
        if config.MaxMsgSize < 1024 then (maxMsgSize : Int) else config.MaxMsgSize := hc
    have hlen2 : (body.length : Int) > connection.maxMsgSize := by rw [hc2]; exact hlen
    simp [Connection.Write, hty, hlen2]

/-- C11, at concrete inputs: with a built-in maxMsgSize of 3145728, the config value -1
gives the server 3145728 and the config value 1025 gives it 1025. -/
theorem server_effective_maxMsgSize_witness :
    (∃ sc : Server,
      StartServer 3145728 "test" (some { MaxMsgSize := -1 }) =
        { endpoint := some sc, err := none, started := [.startServer] } ∧
      sc.maxMsgSize = 3145728) ∧
    (∃ sc : Server,
      StartServer 3145728 "test" (some { MaxMsgSize := 1025 }) =
        { endpoint := some sc, err := none, started := [.startServer] } ∧
      sc.maxMsgSize = 1025) :=
  ⟨(server_effective_maxMsgSize 3145728 "test" { MaxMsgSize := -1 } (by decide)).elim
      fun sc h => ⟨sc, h.1, h.2.1 (by decide)⟩,
   (server_effective_maxMsgSize 3145728 "test" { MaxMsgSize := 1025 } (by decide)).elim
      fun sc h => ⟨sc, h.1, h.2.2.1 (by decide)⟩⟩

/-! ## Theorems: status strings -/

/-- C12: `Status.String` gives "Not Connected", "Listening", "Connecting", "Connected",
"Re-connecting", "Closed", "Closing", "Error" and "Timeout" for the nine statuses in
their declaration order, and it is injective: two statuses with the same string are the
same status, so the text of a `Write` error determines the status. -/
theorem status_strings :
    Status.NotConnected.String = "Not Connected" ∧
    Status.Listening.String = "Listening" ∧
    Status.Connecting.String = "Connecting" ∧
    Status.Connected.String = "Connected" ∧
    Status.ReConnecting.String = "Re-connecting" ∧
    Status.Closed.String = "Closed" ∧
    Status.Closing.String = "Closing" ∧
    Status.Error.String = "Error" ∧
    Status.Timeout.String = "Timeout" ∧
    Function.Injective Status.String := by
  refine ⟨rfl, rfl, rfl, rfl, rfl, rfl, rfl, rfl, rfl, ?_⟩
  intro a b h
  cases a <;> cases b <;> first | rfl | exact absurd h (by decide)

/-! ## Theorems: Read -/

/-- Successive reads of a server whose inbound channel holds error-free messages return
those messages, oldest first, and drain the channel. -/
theorem Server.Reads_queue (ms : List Message) (sc : Server)
    (hq : sc.recieved.queue = ms) (hms : ∀ m ∈ ms, m.err = none) :
    Server.Reads ms.length sc =
      (ms.map (fun m => Await.returned (some m, none)),
        { sc with recieved := { sc.recieved with queue := [] } }) := by
  induction ms generalizing sc with
  | nil =>
    cases sc with
    | mk a b c ch d e f g =>
      cases ch with
      | mk q cl => simp at hq; subst hq; rfl
  | cons m rest ih =>
    have hm : m.err = none := hms m (List.mem_cons_self _ _)
    have hrest : ∀ x ∈ rest, x.err = none := fun x hx => hms x (List.mem_cons_of_mem _ hx)
    have hread : sc.Read =
        (.returned (some m, none), { sc with recieved := { sc.recieved with queue := rest } }) := by
      simp [Server.Read, Chan.recv, hq, hm]
    simp only [List.length_cons, Server.Reads, hread, List.map_cons]
    rw [ih { sc with recieved := { sc.recieved with queue := rest } } rfl hrest]

/-- C13: `Server.Read` returns `(nil, "the recieve channel has been closed")` when the
inbound channel is closed and empty, `(nil, m.err)` when the message `m` it dequeues
carries an error, and `(m, nil)` otherwise. Messages on the channel are returned oldest
first, also when the channel has been closed behind them, and only then does a closed
channel give the closed error. No call closes the channel or changes the status. -/
theorem server_read_contract (sc : Server) :
    (sc.recieved.queue = [] → sc.recieved.closed = true →
      sc.Read = (.returned (none, some "the recieve channel has been closed"), sc)) ∧
    (∀ (m : Message) (rest : List Message) (e : String),
      sc.recieved.queue = m :: rest → m.err = some e →
      sc.Read =
        (.returned (none, some e),
          { sc with recieved := { sc.recieved with queue := rest } })) ∧
    (∀ (m : Message) (rest : List Message),
      sc.recieved.queue = m :: rest → m.err = none →
      sc.Read =
        (.returned (some m, none),
          { sc with recieved := { sc.recieved with queue := rest } })) ∧
    ((∀ m ∈ sc.recieved.queue, m.err = none) → sc.recieved.closed = true →
      Server.Reads (sc.recieved.queue.length + 1) sc =
        (sc.recieved.queue.map (fun m => Await.returned (some m, none)) ++
            [.returned (none, some "the recieve channel has been closed")],
          { sc with recieved := { sc.recieved with queue := [] } })) ∧
    (sc.Read.2.status = sc.status ∧ sc.Read.2.recieved.closed = sc.recieved.closed) := by
  refine ⟨?_, ?_, ?_, ?_, ?_⟩
  · intro hq hc
    simp [Server.Read, Chan.recv, hq, hc]
  · intro m rest e hq he
    simp [Server.Read, Chan.recv, hq, he]
  · intro m rest hq he
    simp [Server.Read, Chan.recv, hq, he]
  · intro hms hc
    have key : ∀ (n : Nat) (s0 : Server) (xs : List (Await (Option Message × Option String)))
        (s1 : Server), Server.Reads n s0 = (xs, s1) →
        Server.Reads (n + 1) s0 = (xs ++ [s1.Read.1], s1.Read.2) := by
      intro n
      induction n with
      | zero =>
        intro s0 xs s1 h
        simp only [Server.Reads] at h
        cases h
        simp [Server.Reads]
      | succ k ih =>
        intro s0 xs s1 h
        rw [Server.Reads] at h
        cases h
        rw [Server.Reads, ih s0.Read.2 _ _ rfl]
        simp
    rw [key _ sc _ _ (Server.Reads_queue sc.recieved.queue sc rfl hms)]
    simp [Server.Read, Chan.recv, hc]
  · cases hq : sc.recieved.queue with
    | nil => by_cases hc : sc.recieved.closed = true <;> simp [Server.Read, Chan.recv, hq, hc]
    | cons m rest => cases he : m.err <;> simp [Server.Read, Chan.recv, hq, he]

/-- C13, at a concrete input: two messages on the channel, closed behind them; three
reads give the first message, the second message and the closed error. -/
theorem server_read_contract_witness :
    Server.Reads 3
        { status := .Connected,
          recieved := { queue := [{ MsgType := 1, Data := [1] }, { MsgType := 1, Data := [2] }],
                        closed := true } } =
      ([.returned (some { MsgType := 1, Data := [1] }, none),
        .returned (some { MsgType := 1, Data := [2] }, none),
        .returned (none, some "the recieve channel has been closed")],
       { status := .Connected, recieved := { queue := [], closed := true } }) :=
  (server_read_contract
    { status := .Connected,
      recieved := { queue := [{ MsgType := 1, Data := [1] }, { MsgType := 1, Data := [2] }],
                    closed := true } }).2.2.2.1 (by decide) rfl

/-- Every read of a client whose inbound channel is closed and empty returns the closed
error and leaves the client as it is. -/
theorem Client.Reads_closed (n : Nat) (cc : Client) (hq : cc.recieved.queue = [])
    (hc : cc.recieved.closed = true) :
    Client.Reads n cc =
      .ok (List.replicate n
        (.returned (none, some "the recieve channel has been closed")), cc) := by
  have hread : cc.Read =
      .ok (.returned (none, some "the recieve channel has been closed"), cc) := by
    simp [Client.Read, Chan.recv, hq, hc]
  induction n with
  | zero => rfl
  | succ k ih => simp [Client.Reads, hread, ih, List.replicate_succ]

/-- C14: when `Client.Read` dequeues a message that carries an error, from open inbound
and outbound channels, it returns `(nil, that error)` and both channels are closed
afterwards; when that message was the last one on the inbound channel, every later
`Client.Read` returns `(nil, "the recieve channel has been closed")`. When the dequeued
message carries no error it is returned as `(m, nil)` and both channels are as open or
closed as before. -/
theorem client_read_contract (cc : Client) :
    (∀ (m : Message) (rest : List Message) (e : String),
      cc.recieved.queue = m :: rest → m.err = some e →
      cc.recieved.closed = false → cc.toWrite.closed = false →
      cc.Read =
        .ok (.returned (none, some e),
          { cc with
            recieved := { queue := rest, closed := true }
            toWrite := { cc.toWrite with closed := true } })) ∧
    (∀ (m : Message) (e : String) (n : Nat),
      cc.recieved.queue = [m] → m.err = some e →
      cc.recieved.closed = false → cc.toWrite.closed = false →
      Client.Reads (n + 1) cc =
        .ok (.returned (none, some e) ::
            List.replicate n (.returned (none, some "the recieve channel has been closed")),
          { cc with
            recieved := { queue := [], closed := true }
            toWrite := { cc.toWrite with closed := true } })) ∧
    (∀ (m : Message) (rest : List Message),
      cc.recieved.queue = m :: rest → m.err = none →
      cc.Read =
        .ok (.returned (some m, none),
          { cc with recieved := { cc.recieved with queue := rest } })) := by
  have h1 : ∀ (m : Message) (rest : List Message) (e : String),
      cc.recieved.queue = m :: rest → m.err = some e →
      cc.recieved.closed = false → cc.toWrite.closed = false →
      cc.Read =
        .ok (.returned (none, some e),
          { cc with
            recieved := { queue := rest, closed := true }
            toWrite := { cc.toWrite with closed := true } }) := by
    intro m rest e hq he hc hw
    simp [Client.Read, Chan.recv, Chan.close, hq, he, hc, hw]
  refine ⟨h1, ?_, ?_⟩
  · intro m e n hq he hc hw
    simp only [Client.Reads, h1 m [] e hq he hc hw]
    rw [Client.Reads_closed n _ rfl rfl]
  · intro m rest hq he
    simp [Client.Read, Chan.recv, hq, he]

/-- C14, at a concrete input: a status message followed by an error message on the
inbound channel of a client; four reads give the status message, the error, and twice
the closed error, and both channels end closed. -/
theorem client_read_contract_witness :
    Client.Read
        { recieved := { queue := [{ MsgType := -1, Status := .Timeout },
                                  { MsgType := -2, err := some "Timed out trying to re-connect" }] } } =
      .ok (.returned (some { MsgType := -1, Status := .Timeout }, none),
        { recieved :=
            { queue := [{ MsgType := -2, err := some "Timed out trying to re-connect" }] } }) ∧
    Client.Reads 3
        { recieved :=
            { queue := [{ MsgType := -2, err := some "Timed out trying to re-connect" }] } } =
      .ok ([.returned (none, some "Timed out trying to re-connect"),
            .returned (none, some "the recieve channel has been closed"),
            .returned (none, some "the recieve channel has been closed")],
        { recieved := { queue := [], closed := true }, toWrite := { closed := true } }) :=
  ⟨(client_read_contract
      { recieved := { queue := [{ MsgType := -1, Status := .Timeout },
                                { MsgType := -2, err := some "Timed out trying to re-connect" }] } }).2.2
      _ _ rfl rfl,
   (client_read_contract
      { recieved :=
          { queue := [{ MsgType := -2, err := some "Timed out trying to re-connect" }] } }).2.1
      _ _ 2 rfl rfl rfl rfl⟩

/-! ## Theorems: paths -/

/-- A string has the suffix `t` exactly when it is some string followed by `t`. -/
theorem hasSuffix_iff (s t : String) : hasSuffix s t = true ↔ ∃ pre : String, s = pre ++ t := by
  unfold hasSuffix
  rw [List.isSuffixOf_iff_suffix]
  constructor
  · rintro ⟨l, hl⟩
    refine ⟨⟨l⟩, ?_⟩
    apply String.ext
    simp [hl]
  · rintro ⟨pre, rfl⟩
    exact ⟨pre.data, by simp⟩

theorem hasSuffix_append (s t : String) : hasSuffix (s ++ t) t = true :=
  (hasSuffix_iff _ _).mpr ⟨s, rfl⟩

theorem append_ne_empty (s t : String) (ht : t ≠ "") : s ++ t ≠ "" := by
  intro h
  have h2 : (s ++ t).data = [] := by rw [h]
  rw [String.data_append, List.append_eq_nil] at h2
  exact ht (String.ext h2.2)

/-- C15: `buildPipePath(dir, name)` on POSIX is "/tmp/" + name + ".sock" for the empty
dir, dir + name + ".sock" for a dir that ends with "/", and dir + "/" + name + ".sock"
otherwise; on Windows it is the default pipe path followed by name for the empty dir,
dir + name for a dir that ends with a backslash, and dir + backslash + name otherwise.
Hence a non-empty dir without the trailing separator gives the same path as that dir
with the separator appended. -/
theorem buildPipePath_cases (dir name : String) :
    (dir = "" → Posix.buildPipePath dir name = "/tmp/" ++ name ++ ".sock") ∧
    (hasSuffix dir "/" = true → Posix.buildPipePath dir name = dir ++ name ++ ".sock") ∧
    (dir ≠ "" → hasSuffix dir "/" = false →
      Posix.buildPipePath dir name = dir ++ "/" ++ name ++ ".sock") ∧
    (dir = "" → Windows.buildPipePath dir name = "\\\\.\\pipe\\" ++ name) ∧
    (hasSuffix dir "\\" = true → Windows.buildPipePath dir name = dir ++ name) ∧
    (dir ≠ "" → hasSuffix dir "\\" = false →
      Windows.buildPipePath dir name = dir ++ "\\" ++ name) ∧
    (dir ≠ "" → hasSuffix dir "/" = false →
      Posix.buildPipePath dir name = Posix.buildPipePath (dir ++ "/") name) ∧
    (dir ≠ "" → hasSuffix dir "\\" = false →
      Windows.buildPipePath dir name = Windows.buildPipePath (dir ++ "\\") name) := by
  have hne1 : hasSuffix dir "/" = true → dir ≠ "" := by
    intro h hd; subst hd; exact absurd h (by decide)
  have hne2 : hasSuffix dir "\\" = true → dir ≠ "" := by
    intro h hd; subst hd; exact absurd h (by decide)
  refine ⟨?_, ?_, ?_, ?_, ?_, ?_, ?_, ?_⟩
  · intro h; simp [Posix.buildPipePath, h]
  · intro h; simp [Posix.buildPipePath, hne1 h, h]
  · intro hd h; simp [Posix.buildPipePath, hd, h]
  · intro h; simp [Windows.buildPipePath, h]
  · intro h; simp [Windows.buildPipePath, hne2 h, h]
  · intro hd h; simp [Windows.buildPipePath, hd, h]
  · intro hd h
    simp [Posix.buildPipePath, hd, h, hasSuffix_append, append_ne_empty dir "/" (by decide)]
  · intro hd h
    simp [Windows.buildPipePath, hd, h, hasSuffix_append,
      append_ne_empty dir "\\" (by decide)]

/-- C15, at concrete inputs: the three POSIX cases and the three Windows cases. -/
theorem buildPipePath_cases_witness :
    Posix.buildPipePath "" "t1" = "/tmp/t1.sock" ∧
    Posix.buildPipePath "/run/" "t1" = "/run/t1.sock" ∧
    Posix.buildPipePath "/run" "t1" = "/run/t1.sock" ∧
    Windows.buildPipePath "" "t1" = "\\\\.\\pipe\\t1" ∧
    Windows.buildPipePath "C:\\p\\" "t1" = "C:\\p\\t1" ∧
    Windows.buildPipePath "C:\\p" "t1" = "C:\\p\\t1" :=
  ⟨(buildPipePath_cases "" "t1").1 rfl,
   (buildPipePath_cases "/run/" "t1").2.1 (by decide),
   (buildPipePath_cases "/run" "t1").2.2.1 (by decide) (by decide),
   (buildPipePath_cases "" "t1").2.2.2.1 rfl,
   (buildPipePath_cases "C:\\p\\" "t1").2.2.2.2.1 (by decide),
   (buildPipePath_cases "C:\\p" "t1").2.2.2.2.2.1 (by decide) (by decide)⟩

/-! ## Theorems: the dial loop -/

/-- The client `StartClient` builds for a non-empty name and a config. -/
theorem StartClient_eq (ipcName : String) (config : ClientConfig)
    (hname : ipcName.length ≠ 0) :
    StartClient ipcName (some config) =
      { endpoint := some
          { socketDirectory := config.SocketDirectory
            name := ipcName
            status := .NotConnected
            recieved := {}
            toWrite := {}
            pskConfig := config.PskConfig
            timeout := if config.Timeout < 0 then 0 else config.Timeout
            retryTimer := if config.RetryTimer < 1 then 1 else config.RetryTimer }
        err := none
        started := [.startClient] } := by
  simp only [StartClient, checkIpcName, if_neg hname]
  by_cases h1 : config.Timeout < 0 <;> by_cases h2 : config.RetryTimer < 1 <;>
    simp [h1, h2]

/-- Whenever the POSIX dial loop returns an error, the error is the timeout error, the
status has been set to Closed, the timeout is not zero and some iteration found the
elapsed time above it. -/
theorem Posix.Client.dial_failed (ticks : List DialTick) (c c1 : Ipc.Client) (e : String)
    (h : Posix.Client.dial c ticks = .ok (.failed e, c1)) :
    e = "Timed out trying to connect" ∧ c1.status = .Closed ∧ c.timeout ≠ 0 ∧
      ∃ tick ∈ ticks, tick.elapsed > c.timeout := by
  induction ticks generalizing c with
  | nil => simp [Posix.Client.dial] at h
  | cons tick rest ih =>
    rw [Posix.Client.dial] at h
    split at h
    · rename_i hto
      injection h with h
      injection h with h1 h2
      injection h1 with h1
      subst h2
      exact ⟨h1.symm, rfl, hto.1, tick, List.mem_cons_self _ _, hto.2⟩
    · split at h
      · cases h
      · have lift : ∀ c2 : Ipc.Client, c2.timeout = c.timeout →
            Posix.Client.dial c2 rest = .ok (.failed e, c1) →
            e = "Timed out trying to connect" ∧ c1.status = .Closed ∧ c.timeout ≠ 0 ∧
              ∃ tick2 ∈ tick :: rest, tick2.elapsed > c.timeout := by
          intro c2 hc2 h2
          obtain ⟨a, b, c3, t, ht, hgt⟩ := ih c2 h2
          rw [hc2] at c3 hgt
          exact ⟨a, b, c3, t, List.mem_cons_of_mem _ ht, hgt⟩
        repeat' split at h
        all_goals first | exact lift _ (by rfl) h | cases h

/-- The POSIX dial loop returns the timeout error, with the status Closed, at the first
iteration that finds the elapsed time above a positive timeout, when every iteration
before it had a failed dial attempt and the inbound channel is open. -/
theorem Posix.Client.dial_times_out (before : List DialTick) (tick : DialTick)
    (rest : List DialTick) (c : Ipc.Client) (hpos : 0 < c.timeout)
    (hgt : tick.elapsed > c.timeout)
    (hbefore : ∀ t ∈ before, ¬ t.elapsed > c.timeout ∧ ∃ e, t.attempt = .err e)
    (hopen : c.recieved.closed = false) :
    ∃ c1, Posix.Client.dial c (before ++ tick :: rest) =
        .ok (.failed "Timed out trying to connect", c1) ∧ c1.status = .Closed := by
  induction before generalizing c with
  | nil =>
    refine ⟨{ c with status := .Closed }, ?_, rfl⟩
    have h0 : c.timeout ≠ 0 := ne_of_gt hpos
    simp [Posix.Client.dial, h0, hgt]
  | cons t pre ih =>
    obtain ⟨hnot, e, he⟩ := hbefore t (List.mem_cons_self _ _)
    have hpre : ∀ c2 : Ipc.Client, c2.timeout = c.timeout →
        ∀ x ∈ pre, ¬ x.elapsed > c2.timeout ∧ ∃ e, x.attempt = .err e := by
      intro c2 hc2 x hx
      rw [hc2]
      exact hbefore x (List.mem_cons_of_mem _ hx)
    have hcond : ¬ (c.timeout ≠ 0 ∧ t.elapsed > c.timeout) := fun hc => hnot hc.2
    rw [List.cons_append, Posix.Client.dial, if_neg hcond]
    simp only [he]
    split
    · exact ih c hpos hgt (hpre c rfl) hopen
    · split
      · exact ih c hpos hgt (hpre c rfl) hopen
      · simp only [Chan.send, hopen, Bool.false_eq_true, if_false]
        exact ih _ hpos hgt (hpre _ rfl) rfl

/-- With a zero timeout the POSIX dial loop is still retrying after any number of
iterations in which the endpoint does not exist. -/
theorem Posix.Client.dial_absent (ticks : List DialTick) (c : Ipc.Client)
    (h0 : c.timeout = 0)
    (habsent : ∀ t ∈ ticks, ∃ e, t.attempt = .err e ∧
      strContains e "connect: no such file or directory" = true) :
    Posix.Client.dial c ticks = .ok (.retrying, c) := by
  induction ticks with
  | nil => rfl
  | cons t rest ih =>
    obtain ⟨e, he, hc⟩ := habsent t (List.mem_cons_self _ _)
    rw [Posix.Client.dial]
    simp only [h0, ne_eq, not_true_eq_false, false_and, if_false, he, hc, if_true]
    exact ih fun x hx => habsent x (List.mem_cons_of_mem _ hx)

/-- C16: for the client `cc` that `StartClient` returns, the effective timeout is 0
when `config.Timeout < 0` and `config.Timeout` otherwise, so it is never negative and is
0 for every `Timeout <= 0`. In the POSIX dial loop of a client with that timeout:
an iteration that finds, at its top, the elapsed time above a positive timeout returns
"Timed out trying to connect" with the status set to Closed (the iterations before it
having failed dial attempts, the inbound channel being open); every error the loop
returns is that error, with the status Closed, a positive timeout and an iteration whose
elapsed time is above it; and for `Timeout <= 0` the loop never returns an error and is
still retrying after any number of iterations in which the endpoint does not exist. -/
theorem dial_timeout_contract (ipcName : String) (config : ClientConfig) (cc : Client)
    (hstart : StartClient ipcName (some config) =
      { endpoint := some cc, err := none, started := [.startClient] }) :
    cc.timeout = (if config.Timeout < 0 then 0 else config.Timeout) ∧
    0 ≤ cc.timeout ∧
    (config.Timeout ≤ 0 → cc.timeout = 0) ∧
    (∀ (c : Client) (before : List DialTick) (tick : DialTick) (rest : List DialTick),
      c.timeout = cc.timeout → 0 < cc.timeout → tick.elapsed > cc.timeout →
      (∀ t ∈ before, ¬ t.elapsed > cc.timeout ∧ ∃ e, t.attempt = .err e) →
      c.recieved.closed = false →
      ∃ c1, Posix.Client.dial c (before ++ tick :: rest) =
          .ok (.failed "Timed out trying to connect", c1) ∧ c1.status = .Closed) ∧
    (∀ (c c1 : Client) (ticks : List DialTick) (e : String),
      c.timeout = cc.timeout → Posix.Client.dial c ticks = .ok (.failed e, c1) →
      e = "Timed out trying to connect" ∧ c1.status = .Closed ∧ 0 < cc.timeout ∧
        ∃ tick ∈ ticks, tick.elapsed > cc.timeout) ∧
    (config.Timeout ≤ 0 →
      ∀ (c c1 : Client) (ticks : List DialTick) (e : String), c.timeout = cc.timeout →
        Posix.Client.dial c ticks ≠ .ok (.failed e, c1)) ∧
    (config.Timeout ≤ 0 →
      ∀ (c : Client) (ticks : List DialTick), c.timeout = cc.timeout →
        (∀ t ∈ ticks, ∃ e, t.attempt = .err e ∧
          strContains e "connect: no such file or directory" = true) →
        Posix.Client.dial c ticks = .ok (.retrying, c)) := by
  have hname : ipcName.length ≠ 0 := by
    intro h0
    simp [StartClient, checkIpcName, h0] at hstart
  rw [StartClient_eq ipcName config hname] at hstart
  have hcc : cc =
      { socketDirectory := config.SocketDirectory
        name := ipcName
        status := .NotConnected
        recieved := {}
        toWrite := {}
        pskConfig := config.PskConfig
        timeout := if config.Timeout < 0 then 0 else config.Timeout
        retryTimer := if config.RetryTimer < 1 then 1 else config.RetryTimer } := by
    have := congrArg Started.endpoint hstart
    simpa using this.symm
  have hto : cc.timeout = (if config.Timeout < 0 then 0 else config.Timeout) := by rw [hcc]
  have hnn : 0 ≤ cc.timeout := by
    rw [hto]
    by_cases h : config.Timeout < 0
    · simp [h]
    · simp [h]; exact not_lt.mp h
  have hzero : config.Timeout ≤ 0 → cc.timeout = 0 := by
    intro h
    rw [hto]
    by_cases h2 : config.Timeout < 0
    · simp [h2]
    · simp [h2]; exact le_antisymm h (not_lt.mp h2)
  refine ⟨hto, hnn, hzero, ?_, ?_, ?_, ?_⟩
  · intro c before tick rest hc hpos hgt hbefore hopen
    rw [← hc] at hpos hgt hbefore
    exact Posix.Client.dial_times_out before tick rest c hpos hgt hbefore hopen
  · intro c c1 ticks e hc h
    obtain ⟨h1, h2, h3, h4⟩ := Posix.Client.dial_failed ticks c c1 e h
    rw [hc] at h3 h4
    exact ⟨h1, h2, lt_of_le_of_ne hnn (Ne.symm h3), h4⟩
  · intro hle c c1 ticks e hc h
    obtain ⟨_, _, h3, _⟩ := Posix.Client.dial_failed ticks c c1 e h
    exact h3 (hc.trans (hzero hle))
  · intro hle c ticks hc habsent
    exact Posix.Client.dial_absent ticks c (hc.trans (hzero hle)) habsent

/-- C16, at concrete inputs. With `Timeout: 2` the client has timeout 2 and the loop,
after iterations at 0, 1 and 2 seconds that find no endpoint, returns the timeout error
at the iteration that starts after 3 seconds. With `Timeout: -1` the client has timeout
0 and the loop is still retrying after those four iterations. -/
theorem dial_timeout_contract_witness :
    (∃ c1, Posix.Client.dial { name := "test2", timeout := 2, retryTimer := 1 }
        ([{ elapsed := 0, attempt := .err "dial unix /tmp/test2.sock: connect: no such file or directory" },
          { elapsed := 1, attempt := .err "dial unix /tmp/test2.sock: connect: no such file or directory" },
          { elapsed := 2, attempt := .err "dial unix /tmp/test2.sock: connect: no such file or directory" }] ++
          { elapsed := 3, attempt := .err "dial unix /tmp/test2.sock: connect: no such file or directory" } ::
          []) =
        .ok (.failed "Timed out trying to connect", c1) ∧ c1.status = .Closed) ∧
    Posix.Client.dial { name := "test2", timeout := 0, retryTimer := 1 }
        [{ elapsed := 0, attempt := .err "dial unix /tmp/test2.sock: connect: no such file or directory" },
         { elapsed := 1, attempt := .err "dial unix /tmp/test2.sock: connect: no such file or directory" },
         { elapsed := 2, attempt := .err "dial unix /tmp/test2.sock: connect: no such file or directory" },
         { elapsed := 3, attempt := .err "dial unix /tmp/test2.sock: connect: no such file or directory" }] =
      .ok (.retrying, { name := "test2", timeout := 0, retryTimer := 1 }) :=
  ⟨(dial_timeout_contract "test2" { Timeout := 2, RetryTimer := 1 }
      { name := "test2", timeout := 2, retryTimer := 1 } (by decide)).2.2.2.1
      _ _ _ _ rfl (by decide) (by decide)
      (by
        intro t ht
        simp only [List.mem_cons, List.mem_singleton, List.not_mem_nil, or_false] at ht
        rcases ht with rfl | rfl | rfl <;> exact ⟨by decide, _, rfl⟩)
      rfl,
   (dial_timeout_contract "test2" { Timeout := -1, RetryTimer := 1 }
      { name := "test2", timeout := 0, retryTimer := 1 } (by decide)).2.2.2.2.2.2
      (by decide) _ _ rfl
      (by
        intro t ht
        simp only [List.mem_cons, List.mem_singleton, List.not_mem_nil, or_false] at ht
        rcases ht with rfl | rfl | rfl | rfl <;> exact ⟨_, rfl, by decide⟩)⟩

/-! ## Theorems: reconnect -/

/-- C17: in `Client.reconnect`, on an open inbound channel, when the dial of
`createConnection` ends with "Timed out trying to connect" (leaving the client `cc2`,
its inbound channel still open), `createConnection` returns that error, and the client
ends with the status Timeout and, behind everything already on its inbound channel, a
-1 message with Status Timeout followed by a -2 message carrying the error
"Timed out trying to re-connect". When the inbound channel was empty before and the
dial put nothing on it, three successive `Client.Read` calls return the ReConnecting
status message, the Timeout status message and then that error. -/
theorem reconnect_timeout (version : Byte) (dial : Client → Outcome (DialEnd × Client))
    (cc cc2 : Client) (hopen : cc.recieved.closed = false)
    (hdial : dial
      { cc with
        status := .ReConnecting
        recieved := { cc.recieved with
          queue := cc.recieved.queue ++ [{ Status := .ReConnecting, MsgType := -1 }] } } =
      .ok (.failed "Timed out trying to connect", cc2))
    (hopen2 : cc2.recieved.closed = false) :
    Client.createConnection version dial
        { cc with
          status := .ReConnecting
          recieved := { cc.recieved with
            queue := cc.recieved.queue ++ [{ Status := .ReConnecting, MsgType := -1 }] } } =
      .ok (.returned (some "Timed out trying to connect"), cc2) ∧
    Client.reconnect version dial cc =
      .ok (.returned [],
        { cc2 with
          status := .Timeout
          recieved := { cc2.recieved with
            queue := cc2.recieved.queue ++
              [{ Status := .Timeout, MsgType := -1 },
               { err := some "Timed out trying to re-connect", MsgType := -2 }] } }) ∧
    (cc2.recieved.queue = [{ Status := .ReConnecting, MsgType := -1 }] →
      cc2.toWrite.closed = false →
      Client.Reads 3
          { cc2 with
            status := .Timeout
            recieved := { cc2.recieved with
              queue := cc2.recieved.queue ++
                [{ Status := .Timeout, MsgType := -1 },
                 { err := some "Timed out trying to re-connect", MsgType := -2 }] } } =
        .ok ([.returned (some { Status := .ReConnecting, MsgType := -1 }, none),
              .returned (some { Status := .Timeout, MsgType := -1 }, none),
              .returned (none, some "Timed out trying to re-connect")],
          { cc2 with
            status := .Timeout
            recieved := { queue := [], closed := true }
            toWrite := { cc2.toWrite with closed := true } })) := by
  have hcreate : Client.createConnection version dial
      { cc with
        status := .ReConnecting
        recieved := { cc.recieved with
          queue := cc.recieved.queue ++ [{ Status := .ReConnecting, MsgType := -1 }] } } =
      .ok (.returned (some "Timed out trying to connect"), cc2) := by
    simp only [Client.createConnection, hdial]
  refine ⟨hcreate, ?_, ?_⟩
  · have hcreate2 := hcreate
    simp only [hopen] at hcreate2
    simp only [Client.reconnect, Chan.send, hopen, Bool.false_eq_true, if_false, hcreate2,
      if_true, hopen2]
    simp
  · intro hq hw
    simp [Client.Reads, Client.Read, Chan.recv, Chan.close, hq, hopen2, hw]

/-- C17, at a concrete input: a Connected client with timeout 2 whose reconnect dial
finds no endpoint after 0 seconds and is past the timeout after 3 seconds. -/
theorem reconnect_timeout_witness :
    Client.reconnect 2
        (fun c => Posix.Client.dial c
          [{ elapsed := 0, attempt := .err "dial unix /tmp/t.sock: connect: no such file or directory" },
           { elapsed := 3, attempt := .err "dial unix /tmp/t.sock: connect: no such file or directory" }])
        { status := .Connected, timeout := 2, retryTimer := 1 } =
      .ok (.returned [],
        { status := .Timeout, timeout := 2, retryTimer := 1,
          recieved := { queue :=
            [{ Status := .ReConnecting, MsgType := -1 },
             { Status := .Timeout, MsgType := -1 },
             { err := some "Timed out trying to re-connect", MsgType := -2 }] } }) ∧
    Client.Reads 3
        { status := .Timeout, timeout := 2, retryTimer := 1,
          recieved := { queue :=
            [{ Status := .ReConnecting, MsgType := -1 },
             { Status := .Timeout, MsgType := -1 },
             { err := some "Timed out trying to re-connect", MsgType := -2 }] } } =
      .ok ([.returned (some { Status := .ReConnecting, MsgType := -1 }, none),
            .returned (some { Status := .Timeout, MsgType := -1 }, none),
            .returned (none, some "Timed out trying to re-connect")],
        { status := .Timeout, timeout := 2, retryTimer := 1,
          recieved := { queue := [], closed := true }, toWrite := { closed := true } }) :=
  have h := reconnect_timeout 2
    (fun c => Posix.Client.dial c
      [{ elapsed := 0, attempt := .err "dial unix /tmp/t.sock: connect: no such file or directory" },
       { elapsed := 3, attempt := .err "dial unix /tmp/t.sock: connect: no such file or directory" }])
    { status := .Connected, timeout := 2, retryTimer := 1 }
    { status := .Closed, timeout := 2, retryTimer := 1,
      recieved := { queue := [{ Status := .ReConnecting, MsgType := -1 }] } }
    rfl (by decide) rfl
  ⟨h.2.1, h.2.2 rfl rfl⟩

/-! ## Theorems: read failures -/

/-- C18: when a read of the server reader fails (the stream cannot fill the buffer and
reports an error), whatever the status of the connection was: the connection's status
becomes Closed; if the server's status is not Closed exactly one message, of type -1,
carrying the connection and the status Closed, is appended to the server's inbound
channel, and if it is Closed nothing is appended; `readData` reports the failure and
`Server.read` leaves its loop at once, at the read of the length as well as at the read
of the payload, so nothing more is delivered for the connection. The inbound channel is
taken to be closed only on a Closed server, and the outbound channel not yet closed
unless the connection was Closing. -/
theorem server_read_failure (sc : Server) (connection : Connection) (ptr : ConnPtr)
    (e : String) (herr : connection.conn.readErr = some e)
    (hinv : sc.recieved.closed = true → sc.status = .Closed)
    (hw : connection.toWrite.closed = false ∨ connection.status = .Closing) :
    (∀ n : Nat, connection.conn.toRead.length < n →
      Server.readData sc connection ptr n =
        .ok (.failed,
          { sc with
            recieved := { sc.recieved with
              queue := sc.recieved.queue ++
                (if sc.status ≠ .Closed then
                  [{ Connection := some ptr, Status := .Closed, MsgType := -1 }]
                 else []) } },
          { connection with
            status := .Closed
            toWrite := { connection.toWrite with
              closed := if connection.status = .Closing then connection.toWrite.closed
                        else true } })) ∧
    (connection.conn.toRead.length < 4 →
      Server.read sc connection ptr =
        .ok (.stopped,
          { sc with
            recieved := { sc.recieved with
              queue := sc.recieved.queue ++
                (if sc.status ≠ .Closed then
                  [{ Connection := some ptr, Status := .Closed, MsgType := -1 }]
                 else []) } },
          { connection with
            status := .Closed
            toWrite := { connection.toWrite with
              closed := if connection.status = .Closing then connection.toWrite.closed
                        else true } })) ∧
    (∀ bLen rest : List Byte, connection.conn.toRead = bLen ++ rest → bLen.length = 4 →
      rest.length < (bytesToInt bLen).toNat →
      Server.read sc connection ptr =
        .ok (.stopped,
          { sc with
            recieved := { sc.recieved with
              queue := sc.recieved.queue ++
                (if sc.status ≠ .Closed then
                  [{ Connection := some ptr, Status := .Closed, MsgType := -1 }]
                 else []) } },
          { connection with
            conn := { connection.conn with toRead := rest }
            status := .Closed
            toWrite := { connection.toWrite with
              closed := if connection.status = .Closing then connection.toWrite.closed
                        else true } })) := by
  have key : ∀ (c : Connection) (n : Nat), c.conn.readErr = some e →
      c.toWrite.closed = false ∨ c.status = .Closing → c.conn.toRead.length < n →
      Server.readData sc c ptr n =
        .ok (.failed,
          { sc with
            recieved := { sc.recieved with
              queue := sc.recieved.queue ++
                (if sc.status ≠ .Closed then
                  [{ Connection := some ptr, Status := .Closed, MsgType := -1 }]
                 else []) } },
          { c with
            status := .Closed
            toWrite := { c.toWrite with
              closed := if c.status = .Closing then c.toWrite.closed else true } }) := by
    intro c n hce hcw hn
    have hn2 : ¬ n ≤ c.conn.toRead.length := not_le.mpr hn
    by_cases hs : sc.status = .Closed
    · by_cases hc : c.status = .Closing
      · simp [Server.readData, Conn.Read, hn2, hce, hs, hc]
      · have hcl : c.toWrite.closed = false := hcw.resolve_right hc
        simp [Server.readData, Conn.Read, hn2, hce, hs, hc, Connection.Close, Chan.close, hcl]
    · have hopen : sc.recieved.closed = false := by
        cases h : sc.recieved.closed with
        | false => rfl
        | true => exact absurd (hinv h) hs
      by_cases hc : c.status = .Closing
      · simp [Server.readData, Conn.Read, hn2, hce, hs, hc, Chan.send, hopen]
      · have hcl : c.toWrite.closed = false := hcw.resolve_right hc
        simp [Server.readData, Conn.Read, hn2, hce, hs, hc, Chan.send, hopen,
          Connection.Close, Chan.close, hcl]
  refine ⟨fun n hn => key connection n herr hw hn, ?_, ?_⟩
  · intro h4
    simp only [Server.read, Server.readLoop, key connection 4 herr hw h4]
  · intro bLen rest hsplit hlen hshort
    simp only [Server.read, Server.readLoop,
      Server.readData_append sc connection ptr bLen rest 4 hlen hsplit]
    rw [key { connection with conn := { connection.conn with toRead := rest } }
      (bytesToInt bLen).toNat herr hw hshort]

/-- C18, at a concrete input: a Connected connection at address 7 of a Listening server;
the stream ends with EOF before a length could be read. -/
theorem server_read_failure_witness :
    Server.read { status := .Listening }
        { status := .Connected, conn := { readErr := some "EOF" } } 7 =
      .ok (.stopped,
        { status := .Listening,
          recieved := { queue := [{ Connection := some 7, Status := .Closed, MsgType := -1 }] } },
        { status := .Closed, conn := { readErr := some "EOF" },
          toWrite := { closed := true } }) :=
  (server_read_failure { status := .Listening }
    { status := .Connected, conn := { readErr := some "EOF" } } 7 "EOF" rfl
    (by decide) (Or.inl rfl)).2.1 (by decide)

/-- C19, as stated, fails. `Client.Close()` on a Connected client sets the status to
Closing and closes the stream; when the next read of the reader then fails with "EOF",
`readData` reports the failure, starts no reconnect, publishes nothing, and the status is
still Closing, not Closed. -/
theorem client_close_eof_counterexample :
    Client.Close { status := .Connected, conn := some { readErr := some "EOF" } } =
      .ok { status := .Closing, conn := some { readErr := some "EOF", closed := true } } ∧
    Client.readData
        { status := .Closing, conn := some { readErr := some "EOF", closed := true } } 4 =
      .ok (.failed,
        { status := .Closing, conn := some { readErr := some "EOF", closed := true } }, []) ∧
    ((Client.readData
        { status := .Closing, conn := some { readErr := some "EOF", closed := true } } 4).map
      fun r => r.2.1.status) ≠ .ok .Closed := by
  decide

/-- C19, amended: `Client.Close()` sets the status to Closing and closes the stream.
When the next read of the reader of such a client fails, no reconnect is started. If the
text of the read error contains "EOF" the status stays Closing and nothing is published;
if it does not, the status becomes Closed and the inbound channel (open) receives a -1
message with Status Closed and then a -2 message carrying the error
"Client has closed the Connection". -/
theorem client_close_then_read_failure (cc : Client) (conn : Conn) (n : Nat) (err : String)
    (hconn : cc.conn = some conn) (hshort : conn.toRead.length < n)
    (herr : conn.readErr = some err) :
    Client.Close cc = .ok { cc with status := .Closing, conn := some conn.Close } ∧
    (strContains err "EOF" = true →
      Client.readData { cc with status := .Closing, conn := some conn.Close } n =
        .ok (.failed,
          { cc with status := .Closing, conn := some conn.Close.Close }, [])) ∧
    (strContains err "EOF" = false → cc.recieved.closed = false →
      Client.readData { cc with status := .Closing, conn := some conn.Close } n =
        .ok (.failed,
          { cc with
            status := .Closed
            conn := some conn.Close
            recieved := { cc.recieved with
              queue := cc.recieved.queue ++
                [{ Status := .Closed, MsgType := -1 },
                 { err := some "Client has closed the Connection", MsgType := -2 }] } },
          [])) := by
  have hn : ¬ n ≤ conn.toRead.length := not_le.mpr hshort
  refine ⟨?_, ?_, ?_⟩
  · simp [Client.Close, hconn]
  · intro he
    simp [Client.readData, Conn.Read, Conn.Close, hn, herr, he]
  · intro he hopen
    simp [Client.readData, Conn.Read, Conn.Close, hn, herr, he, Chan.send, hopen]

/-- C19 amended, at concrete inputs: after `Close`, a read failing with "EOF" leaves the
status Closing, and a read failing with "use of closed network connection" makes it
Closed and publishes the two messages. -/
theorem client_close_then_read_failure_witness :
    Client.readData
        { status := .Closing, conn := some { readErr := some "EOF", closed := true } } 4 =
      .ok (.failed,
        { status := .Closing, conn := some { readErr := some "EOF", closed := true } }, []) ∧
    Client.readData
        { status := .Closing,
          conn := some { readErr := some "use of closed network connection", closed := true } }
        4 =
      .ok (.failed,
        { status := .Closed,
          conn := some { readErr := some "use of closed network connection", closed := true },
          recieved := { queue :=
            [{ Status := .Closed, MsgType := -1 },
             { err := some "Client has closed the Connection", MsgType := -2 }] } },
        []) :=
  ⟨(client_close_then_read_failure
      { status := .Connected, conn := some { readErr := some "EOF" } }
      { readErr := some "EOF" } 4 "EOF" rfl (by decide) rfl).2.1 (by decide),
   (client_close_then_read_failure
      { status := .Connected, conn := some { readErr := some "use of closed network connection" } }
      { readErr := some "use of closed network connection" } 4
      "use of closed network connection" rfl (by decide) rfl).2.2 (by decide) rfl⟩

/-- C20, the code at the failing input: in `Client.reconnect`, on an open inbound
channel, when `createConnection` returns an error other than
"Timed out trying to connect" (a handshake failure, or on Windows a dial error), the
function returns at once: the client is the one `createConnection` left, so no -2
message and no error is put on the inbound channel, the status is not changed and no
reader is started. `startClient`, in the same situation, puts a -2 message carrying the
error on the inbound channel. -/
theorem reconnect_drops_other_errors (version : Byte)
    (dial : Client → Outcome (DialEnd × Client)) (cc cc2 cc3 : Client) (err : String)
    (hopen : cc.recieved.closed = false)
    (hcreate : Client.createConnection version dial
      { cc with
        status := .ReConnecting
        recieved := { cc.recieved with
          queue := cc.recieved.queue ++ [{ Status := .ReConnecting, MsgType := -1 }] } } =
      .ok (.returned (some err), cc2))
    (hne : err ≠ "Timed out trying to connect")
    (hcreate3 : Client.createConnection version dial
      { cc with
        status := .Connecting
        recieved := { cc.recieved with
          queue := cc.recieved.queue ++ [{ Status := .Connecting, MsgType := -1 }] } } =
      .ok (.returned (some err), cc3))
    (hopen3 : cc3.recieved.closed = false) :
    Client.reconnect version dial cc = .ok (.returned [], cc2) ∧
    startClient version dial cc =
      .ok (.returned [],
        { cc3 with
          recieved := { cc3.recieved with
            queue := cc3.recieved.queue ++ [{ err := some err, MsgType := -2 }] } }) := by
  simp only [hopen] at hcreate hcreate3
  constructor
  · simp only [Client.reconnect, Chan.send, hopen, Bool.false_eq_true, if_false, hcreate,
      if_neg hne]
  · simp only [startClient, Chan.send, hopen, Bool.false_eq_true, if_false, hcreate3, hopen3]

/-- C20 at a concrete input: a client with protocol version 2 reconnects (and, for
comparison, starts) against a server whose handshake record carries version 3. After
the reconnect the inbound channel holds only the ReConnecting status message and the
status is ReConnecting; after the start it also holds the -2 message with the error. -/
theorem reconnect_drops_other_errors_witness :
    Client.reconnect 2
        (fun c => Posix.Client.dial c
          [{ elapsed := 0, attempt := .conn { toRead := [3, 0, 0, 0, 0, 48, 0, 0] } }])
        { status := .Connected } =
      .ok (.returned [],
        { status := .ReConnecting,
          conn := some { toRead := [], written := [1] },
          recieved := { queue := [{ Status := .ReConnecting, MsgType := -1 }] } }) ∧
    startClient 2
        (fun c => Posix.Client.dial c
          [{ elapsed := 0, attempt := .conn { toRead := [3, 0, 0, 0, 0, 48, 0, 0] } }])
        { status := .Connected } =
      .ok (.returned [],
        { status := .Connecting,
          conn := some { toRead := [], written := [1] },
          recieved := { queue :=
            [{ Status := .Connecting, MsgType := -1 },
             { err := some "server has sent a different version number: 3", MsgType := -2 }] } }) :=
  reconnect_drops_other_errors 2
    (fun c => Posix.Client.dial c
      [{ elapsed := 0, attempt := .conn { toRead := [3, 0, 0, 0, 0, 48, 0, 0] } }])
    { status := .Connected }
    { status := .ReConnecting,
      conn := some { toRead := [], written := [1] },
      recieved := { queue := [{ Status := .ReConnecting, MsgType := -1 }] } }
    { status := .Connecting,
      conn := some { toRead := [], written := [1] },
      recieved := { queue := [{ Status := .Connecting, MsgType := -1 }] } }
    "server has sent a different version number: 3" rfl (by decide) (by decide) (by decide)
    rfl

/-! ## Theorems: the handshake replies -/

/-- C26: for every 8-byte record `recv` the client reads from its stream: when `recv[0]`
differs from the protocol version, `Client.handshake` replies with the byte 1, returns
"server has sent a different version number: " followed by `recv[0]` in decimal, and the
client's maxMsgSize is unchanged; otherwise it sets maxMsgSize to the big-endian value
of `recv[4..8]`, replies with the byte 0 and returns nil. The reply is the single byte
appended to what the stream has received, when the stream accepts the write. -/
theorem client_handshake_record (version : Byte) (cc : Client) (conn : Conn)
    (b0 b1 b2 b3 b4 b5 b6 b7 : Byte) (rest : List Byte) (hconn : cc.conn = some conn)
    (hread : conn.toRead = [b0, b1, b2, b3, b4, b5, b6, b7] ++ rest) :
    (b0 ≠ version →
      Client.handshake version cc =
        .ok (.returned
            (some ("server has sent a different version number: " ++ toString b0.val)),
          { cc with
            conn := some (Client.handshakeSendReply { conn with toRead := rest } 1) })) ∧
    (b0 = version →
      Client.handshake version cc =
        .ok (.returned none,
          { cc with
            maxMsgSize :=
              ((b4.val * 16777216 + b5.val * 65536 + b6.val * 256 + b7.val : Nat) : Int)
            conn := some (Client.handshakeSendReply { conn with toRead := rest } 0) })) ∧
    (conn.writeErr = none →
      ∀ reply : Byte,
        Client.handshakeSendReply { conn with toRead := rest } reply =
          { conn with toRead := rest, written := conn.written ++ [reply] }) := by
  refine ⟨?_, ?_, ?_⟩
  · intro hne
    simp [Client.handshake, hconn, Conn.Read, hread, hne]
  · intro heq
    simp [Client.handshake, hconn, Conn.Read, hread, heq, readUint32]
  · intro hw reply
    simp [Client.handshakeSendReply, Conn.Write, hw]

/-- C26, at concrete inputs: a client of version 2 reads a record of version 3, and a
record of version 2 that announces 3145728. -/
theorem client_handshake_record_witness :
    Client.handshake 2 { maxMsgSize := 5, conn := some { toRead := [3, 0, 0, 0, 0, 48, 0, 0] } } =
      .ok (.returned (some "server has sent a different version number: 3"),
        { maxMsgSize := 5, conn := some { toRead := [], written := [1] } }) ∧
    Client.handshake 2 { maxMsgSize := 5, conn := some { toRead := [2, 0, 0, 0, 0, 48, 0, 0] } } =
      .ok (.returned none,
        { maxMsgSize := 3145728, conn := some { toRead := [], written := [0] } }) :=
  ⟨(client_handshake_record 2
      { maxMsgSize := 5, conn := some { toRead := [3, 0, 0, 0, 0, 48, 0, 0] } }
      { toRead := [3, 0, 0, 0, 0, 48, 0, 0] } 3 0 0 0 0 48 0 0 [] rfl rfl).1 (by decide),
   (client_handshake_record 2
      { maxMsgSize := 5, conn := some { toRead := [2, 0, 0, 0, 0, 48, 0, 0] } }
      { toRead := [2, 0, 0, 0, 0, 48, 0, 0] } 2 0 0 0 0 48 0 0 [] rfl rfl).2.1 rfl⟩

/-- C27: when the stream has accepted the 8-byte record and the server reads the 1-byte
reply `r`, `Server.handshake` returns nil for `r = 0`, the error
"client has a different version number" for `r = 1` and the error
"other error - handshake failed" for every other `r`; it returns nil if and only if
`r = 0`. -/
theorem server_handshake_reply (version : Byte) (maxMsgSize : Nat)
    (connection : Connection) (r : Byte) (rest : List Byte)
    (hw : connection.conn.writeErr = none) (hreply : connection.conn.toRead = r :: rest) :
    (r = 0 → (Server.handshake version maxMsgSize connection).1 = .returned none) ∧
    (r = 1 → (Server.handshake version maxMsgSize connection).1 =
      .returned (some "client has a different version number")) ∧
    (r ≠ 0 → r ≠ 1 → (Server.handshake version maxMsgSize connection).1 =
      .returned (some "other error - handshake failed")) ∧
    ((Server.handshake version maxMsgSize connection).1 = .returned none ↔ r = 0) ∧
    (Server.handshake version maxMsgSize connection).2 =
      { connection with
        conn := { connection.conn with
          written := connection.conn.written ++ ([version, 0, 0, 0] ++ putUint32 maxMsgSize)
          toRead := rest } } := by
  have h0 : r = 0 → (Server.handshake version maxMsgSize connection).1 = .returned none := by
    intro h; subst h
    simp [Server.handshake, Conn.Write, Conn.Read, hw, hreply]
  have h1 : r = 1 → (Server.handshake version maxMsgSize connection).1 =
      .returned (some "client has a different version number") := by
    intro h; subst h
    simp [Server.handshake, Conn.Write, Conn.Read, hw, hreply]
  have h2 : r ≠ 0 → r ≠ 1 → (Server.handshake version maxMsgSize connection).1 =
      .returned (some "other error - handshake failed") := by
    intro hr0 hr1
    simp only [Server.handshake, Conn.Write, Conn.Read, hw, hreply]
    simp
    split
    · rename_i heq; simp at heq; exact absurd heq hr0
    · rename_i heq; simp at heq; exact absurd heq hr1
    · rfl
  refine ⟨h0, h1, h2, ?_, ?_⟩
  · constructor
    · intro h
      by_contra hr0
      by_cases hr1 : r = 1
      · rw [h1 hr1] at h; cases h
      · rw [h2 hr0 hr1] at h; cases h
    · exact h0
  · simp only [Server.handshake, Conn.Write, Conn.Read, hw, hreply]
    simp
    split <;> rfl

/-- C27, at concrete inputs: the replies 0, 1 and 2. -/
theorem server_handshake_reply_witness :
    (Server.handshake 2 3145728 { conn := { toRead := [0] } }).1 = .returned none ∧
    (Server.handshake 2 3145728 { conn := { toRead := [1] } }).1 =
      .returned (some "client has a different version number") ∧
    (Server.handshake 2 3145728 { conn := { toRead := [2] } }).1 =
      .returned (some "other error - handshake failed") :=
  ⟨(server_handshake_reply 2 3145728 { conn := { toRead := [0] } } 0 [] rfl rfl).1 rfl,
   (server_handshake_reply 2 3145728 { conn := { toRead := [1] } } 1 [] rfl rfl).2.1 rfl,
   (server_handshake_reply 2 3145728 { conn := { toRead := [2] } } 2 [] rfl rfl).2.2.1
      (by decide) (by decide)⟩

/-! ## Theorems: the reader loops -/

/-- Client.createConnection returns nil only after it has set the status Connected. -/
theorem Client.createConnection_connected (version : Byte)
    (dial : Client → Outcome (DialEnd × Client)) (cc cc2 : Client)
    (h : Client.createConnection version dial cc = .ok (.returned none, cc2)) :
    cc2.status = .Connected := by
  unfold Client.createConnection at h
  split at h
  · cases h
  · cases h
  · cases h
  · simp only at h
    split at h
    · cases h
    · cases h
    · cases h
    · simp only [Chan.send] at h
      split at h
      · cases h
      · cases h
        rfl

/-- The client reader is started (`go cc.read()`, by `startClient` and by `reconnect`)
only on a client whose status is Connected. -/
theorem Client.reader_started_connected (version : Byte)
    (dial : Client → Outcome (DialEnd × Client)) (cc cc2 : Client) (gs : List Goroutine)
    (hg : Goroutine.clientRead ∈ gs) :
    (startClient version dial cc = .ok (.returned gs, cc2) → cc2.status = .Connected) ∧
    (Client.reconnect version dial cc = .ok (.returned gs, cc2) →
      cc2.status = .Connected) := by
  constructor
  · intro h
    simp only [startClient, Chan.send] at h
    split at h
    · cases h
    · split at h
      · cases h
      · cases h
      · split at h
        · cases h
        · cases h
          simp at hg
      · rename_i c hc
        cases h
        exact Client.createConnection_connected _ _ _ _ hc
  · intro h
    simp only [Client.reconnect, Chan.send] at h
    split at h
    · cases h
    · split at h
      · cases h
      · cases h
      · split at h
        · split at h
          · cases h
          · split at h
            · cases h
            · cases h
              simp at hg
        · cases h
          simp at hg
      · rename_i c hc
        cases h
        exact Client.createConnection_connected _ _ _ _ hc

/-- While the client reader goes on (its `readData` returned true, or waits for bytes),
`readData` has left the status as it was and started nothing; `Client.Close`, the one
other writer of the status while a reader runs, sets Closing. The status Closed is
written by `readData` only in a call that returns false, which ends the reader. -/
theorem Client.readData_keeps_status (cc cc2 : Client) (n : Nat) (r : ReadData)
    (gs : List Goroutine) (h : Client.readData cc n = .ok (r, cc2, gs))
    (hr : r ≠ .failed) :
    cc2.status = cc.status ∧ gs = [] ∧
    (∀ c, Client.Close cc = .ok c → c.status = .Closing) := by
  have key : cc2.status = cc.status ∧ gs = [] := by
    unfold Client.readData at h
    split at h
    · cases h
    · split at h
      · cases h; exact ⟨rfl, rfl⟩
      · cases h; exact ⟨rfl, rfl⟩
      · split at h
        · simp only at h
          split at h <;> (cases h; exact absurd rfl hr)
        · split at h
          · simp only at h
            split at h
            · cases h
            · split at h
              · cases h
              · cases h; exact absurd rfl hr
          · cases h; exact absurd rfl hr
  refine ⟨key.1, key.2, ?_⟩
  intro c hc
  simp only [Client.Close] at hc
  split at hc
  · cases hc
  · cases hc; rfl

/-- C24: when a read of the client reader fails with an error whose text contains "EOF",
`readData` closes the stream, returns false, and starts a reconnect if and only if the
status is neither Closing nor Closed. The statement is over the statuses a running reader
meets: a reader is started only on a Connected client
(`Client.reader_started_connected`), and while it runs the status is written only by
`Client.Close`, to Closing, and by the call of `readData` that ends it
(`Client.readData_keeps_status`), so the status is not Closed at the read. -/
theorem client_eof_reconnect (cc : Client) (conn : Conn) (n : Nat) (err : String)
    (hconn : cc.conn = some conn) (hshort : conn.toRead.length < n)
    (herr : conn.readErr = some err) (heof : strContains err "EOF" = true)
    (hreach : cc.status ≠ .Closed) :
    Client.readData cc n =
      .ok (.failed, { cc with conn := some conn.Close },
        if cc.status ≠ .Closing ∧ cc.status ≠ .Closed then [.reconnect] else []) := by
  have hn : ¬ n ≤ conn.toRead.length := not_le.mpr hshort
  by_cases hs : cc.status = .Closing
  · simp [Client.readData, hconn, Conn.Read, hn, herr, heof, hs]
  · simp [Client.readData, hconn, Conn.Read, hn, herr, heof, hs, hreach]

/-- C24 at concrete inputs: a Connected client whose read fails with "EOF" starts a
reconnect; one whose status is Closing does not. -/
theorem client_eof_reconnect_witness :
    Client.readData { status := .Connected, conn := some { readErr := some "EOF" } } 4 =
      .ok (.failed,
        { status := .Connected, conn := some { readErr := some "EOF", closed := true } },
        [.reconnect]) ∧
    Client.readData { status := .Closing, conn := some { readErr := some "EOF" } } 4 =
      .ok (.failed,
        { status := .Closing, conn := some { readErr := some "EOF", closed := true } }, []) :=
  ⟨client_eof_reconnect { status := .Connected, conn := some { readErr := some "EOF" } }
      { readErr := some "EOF" } 4 "EOF" rfl (by decide) rfl (by decide) (by decide),
   client_eof_reconnect { status := .Closing, conn := some { readErr := some "EOF" } }
      { readErr := some "EOF" } 4 "EOF" rfl (by decide) rfl (by decide) (by decide)⟩

theorem Client.readData_fills (cc : Client) (conn : Conn) (a b : List Byte) (n : Nat)
    (hconn : cc.conn = some conn) (hn : a.length = n) (h : conn.toRead = a ++ b) :
    Client.readData cc n =
      .ok (.filled a, { cc with conn := some { conn with toRead := b } }, []) := by
  simp [Client.readData, hconn, Conn.Read_append conn a b n hn h]

/-- C21, the code at the failing input: when the 4 length bytes on the stream decode to
a value below 4 and the stream holds that many payload bytes, the reader fills its
buffer and then panics in `msgRecvd[:4]`, in `Server.read` and in `Client.read`. -/
theorem reader_panics_on_short_frame (sc : Server) (connection : Connection)
    (ptr : ConnPtr) (cc : Client) (conn : Conn) (bLen payload rest : List Byte)
    (hb : bLen.length = 4) (hk : bytesToInt bLen < 4)
    (hp : payload.length = (bytesToInt bLen).toNat)
    (hs : connection.conn.toRead = bLen ++ (payload ++ rest))
    (hc : cc.conn = some conn) (hcs : conn.toRead = bLen ++ (payload ++ rest)) :
    Server.read sc connection ptr = .panic "slice bounds out of range" ∧
    Client.read cc = .panic "slice bounds out of range" := by
  have hshort : payload.length < 4 := by omega
  constructor
  · simp only [Server.read, Server.readLoop,
      Server.readData_append sc connection ptr bLen (payload ++ rest) 4 hb hs]
    rw [Server.readData_append sc _ ptr payload rest _ hp rfl]
    simp [hshort]
  · simp only [Client.read, Client.readLoop,
      Client.readData_fills cc conn bLen (payload ++ rest) 4 hc hb hcs]
    rw [Client.readData_fills _ { conn with toRead := payload ++ rest } payload rest _ rfl hp rfl]
    simp [hshort]

/-- C21 at a concrete input: the bytes `[0, 0, 0, 2, 9, 9]`, a frame whose length field
is 2, make the server reader and the client reader panic. -/
theorem reader_panics_on_short_frame_witness :
    Server.read { status := .Listening }
        { status := .Connected, conn := { toRead := [0, 0, 0, 2, 9, 9] } } 7 =
      .panic "slice bounds out of range" ∧
    Client.read { status := .Connected, conn := some { toRead := [0, 0, 0, 2, 9, 9] } } =
      .panic "slice bounds out of range" :=
  reader_panics_on_short_frame { status := .Listening }
    { status := .Connected, conn := { toRead := [0, 0, 0, 2, 9, 9] } } 7
    { status := .Connected, conn := some { toRead := [0, 0, 0, 2, 9, 9] } }
    { toRead := [0, 0, 0, 2, 9, 9] } [0, 0, 0, 2] [9, 9] [] rfl (by decide) rfl rfl rfl rfl

/-- One iteration of the client reader on a stream that starts with an encoded frame
whose length field does not wrap: a frame whose type field is zero is dropped, any other
is sent to the inbound channel with the status of the client, and the loop goes on
behind the frame. -/
theorem Client.readLoop_frame (fuel : Nat) (cc : Client) (conn : Conn) (msgType : Int)
    (body rest : List Byte) (hfit : 4 + (body.length : Int) < 4294967296)
    (hconn : cc.conn = some conn) (h : conn.toRead = encode msgType body ++ rest) :
    Client.readLoop (fuel + 1) cc =
      if msgType % 4294967296 = 0 then
        Client.readLoop fuel { cc with conn := some { conn with toRead := rest } }
      else
        match cc.recieved.send
            { Status := cc.status, Data := body, MsgType := msgType % 4294967296 } with
        | .panic p => .panic p
        | .ok ch =>
          Client.readLoop fuel
            { cc with conn := some { conn with toRead := rest }, recieved := ch } := by
  have h1 : conn.toRead =
      intToBytes (4 + (body.length : Int)) ++ ((intToBytes msgType ++ body) ++ rest) := by
    rw [h, encode_eq]; simp [List.append_assoc]
  have hmLen : bytesToInt (intToBytes (4 + (body.length : Int))) = 4 + (body.length : Int) := by
    have := bytesToInt_intToBytes (4 + (body.length : Int)) []
    rw [List.append_nil] at this
    rw [this]
    omega
  have hnat : (4 + (body.length : Int)).toNat = (intToBytes msgType ++ body).length := by
    simp [intToBytes_length]
    omega
  have htake : (intToBytes msgType ++ body).take 4 = intToBytes msgType := by
    simp [intToBytes, putUint32]
  have hdrop : (intToBytes msgType ++ body).drop 4 = body := by
    simp [intToBytes, putUint32]
  have hty : bytesToInt (intToBytes msgType) = msgType % 4294967296 := by
    have := bytesToInt_intToBytes msgType []
    rwa [List.append_nil] at this
  have hl4 : ¬ (intToBytes msgType ++ body).length < 4 := by
    simp [intToBytes_length]
  rw [Client.readLoop,
    Client.readData_fills cc conn _ _ 4 hconn (intToBytes_length _) h1]
  simp only [hmLen]
  rw [Client.readData_fills _ { conn with toRead := (intToBytes msgType ++ body) ++ rest }
    (intToBytes msgType ++ body) rest _ rfl hnat.symm rfl]
  simp only [hl4, if_false, htake, hdrop, hty]

/-- On a stream that is used up and still open the client reader waits. -/
theorem Client.readLoop_waits (fuel : Nat) (cc : Client) (conn : Conn)
    (hconn : cc.conn = some conn) (h : conn.toRead = []) (hopen : conn.readErr = none) :
    Client.readLoop (fuel + 1) cc = .ok (.waiting, cc, []) := by
  simp [Client.readLoop, Client.readData, hconn, Conn.Read, h, hopen]

/-- The server reader on a stream of well-formed frames. -/
theorem Server.readLoop_frames (ptr : ConnPtr) (frames : List (Int × List Byte))
    (fuel : Nat) (sc : Server) (connection : Connection) (hfuel : frames.length < fuel)
    (hwf : ∀ f ∈ frames, 0 ≤ f.1 ∧ f.1 < 4294967296 ∧ 4 + (f.2.length : Int) < 4294967296)
    (hsc : sc.status ≠ .Closed) (hrc : sc.recieved.closed = false)
    (hs : connection.conn.toRead = frames.flatMap (fun f => encode f.1 f.2))
    (hso : connection.conn.readErr = none) :
    Server.readLoop ptr fuel sc connection =
      .ok (.waiting,
        { sc with
          recieved := { sc.recieved with
            queue := sc.recieved.queue ++
              (frames.filter (fun f => decide (f.1 ≠ 0))).map
                (fun f => { Connection := some ptr, Data := f.2, MsgType := f.1 }) } },
        { connection with conn := { connection.conn with toRead := [] } }) := by
  induction frames generalizing fuel sc connection with
  | nil =>
    obtain ⟨k, rfl⟩ : ∃ k, fuel = k + 1 := ⟨fuel - 1, by simp at hfuel; omega⟩
    simp only [List.flatMap_nil] at hs
    rw [Server.readLoop_idle ptr k sc connection hs hso]
    cases sc with
    | mk a b c ch d e f g =>
      cases ch with
      | mk q cl =>
        cases connection with
        | mk cn m st tw =>
          cases cn with
          | mk tr re wr we cls =>
            simp at hs
            subst hs
            simp
  | cons f rest ih =>
    obtain ⟨k, rfl⟩ : ∃ k, fuel = k + 1 := ⟨fuel - 1, by simp at hfuel; omega⟩
    have hk : rest.length < k := by simp at hfuel; omega
    obtain ⟨h0, h1, h2⟩ := hwf f (List.mem_cons_self _ _)
    have hrest : ∀ x ∈ rest,
        0 ≤ x.1 ∧ x.1 < 4294967296 ∧ 4 + (x.2.length : Int) < 4294967296 :=
      fun x hx => hwf x (List.mem_cons_of_mem _ hx)
    have hmod : f.1 % 4294967296 = f.1 := Int.emod_eq_of_lt h0 h1
    have hs2 : connection.conn.toRead =
        encode f.1 f.2 ++ rest.flatMap (fun f => encode f.1 f.2) := by
      simpa [List.flatMap_cons] using hs
    rw [Server.readLoop_encode ptr k sc connection f.1 f.2 _ h2 hs2, hmod]
    by_cases hz : f.1 = 0
    · rw [if_pos hz,
        ih k sc
          { connection with
            conn := { connection.conn with toRead := rest.flatMap (fun f => encode f.1 f.2) } }
          hk hrest hsc hrc rfl hso]
      simp [hz]
    · rw [if_neg hz, if_pos hsc]
      simp only [Chan.send, hrc, Bool.false_eq_true, if_false]
      rw [ih k
          { sc with
            recieved :=
              { queue := sc.recieved.queue ++
                  [{ Connection := some ptr, Data := f.2, MsgType := f.1 }],
                closed := false } }
          { connection with
            conn := { connection.conn with toRead := rest.flatMap (fun f => encode f.1 f.2) } }
          hk hrest hsc rfl rfl hso]
      simp [hz]

/-- The client reader on a stream of well-formed frames. -/
theorem Client.readLoop_frame_list (frames : List (Int × List Byte)) (fuel : Nat)
    (cc : Client) (conn : Conn) (hfuel : frames.length < fuel)
    (hwf : ∀ f ∈ frames, 0 ≤ f.1 ∧ f.1 < 4294967296 ∧ 4 + (f.2.length : Int) < 4294967296)
    (hconn : cc.conn = some conn) (hrc : cc.recieved.closed = false)
    (hs : conn.toRead = frames.flatMap (fun f => encode f.1 f.2))
    (hso : conn.readErr = none) :
    Client.readLoop fuel cc =
      .ok (.waiting,
        { cc with
          conn := some { conn with toRead := [] }
          recieved := { cc.recieved with
            queue := cc.recieved.queue ++
              (frames.filter (fun f => decide (f.1 ≠ 0))).map
                (fun f => { Status := cc.status, Data := f.2, MsgType := f.1 }) } },
        []) := by
  induction frames generalizing fuel cc conn with
  | nil =>
    obtain ⟨k, rfl⟩ : ∃ k, fuel = k + 1 := ⟨fuel - 1, by simp at hfuel; omega⟩
    simp only [List.flatMap_nil] at hs
    rw [Client.readLoop_waits k cc conn hconn hs hso]
    cases cc with
    | mk a b cn st tmo rt ch tw m ps =>
      cases ch with
      | mk q cl =>
        cases conn with
        | mk tr re wr we cls =>
          simp at hs hconn
          subst hs
          simp [hconn]
  | cons f rest ih =>
    obtain ⟨k, rfl⟩ : ∃ k, fuel = k + 1 := ⟨fuel - 1, by simp at hfuel; omega⟩
    have hk : rest.length < k := by simp at hfuel; omega
    obtain ⟨h0, h1, h2⟩ := hwf f (List.mem_cons_self _ _)
    have hrest : ∀ x ∈ rest,
        0 ≤ x.1 ∧ x.1 < 4294967296 ∧ 4 + (x.2.length : Int) < 4294967296 :=
      fun x hx => hwf x (List.mem_cons_of_mem _ hx)
    have hmod : f.1 % 4294967296 = f.1 := Int.emod_eq_of_lt h0 h1
    have hs2 : conn.toRead = encode f.1 f.2 ++ rest.flatMap (fun f => encode f.1 f.2) := by
      simpa [List.flatMap_cons] using hs
    rw [Client.readLoop_frame k cc conn f.1 f.2 _ h2 hconn hs2, hmod]
    by_cases hz : f.1 = 0
    · rw [if_pos hz,
        ih k
          { cc with
            conn := some { conn with toRead := rest.flatMap (fun f => encode f.1 f.2) } }
          { conn with toRead := rest.flatMap (fun f => encode f.1 f.2) }
          hk hrest rfl hrc rfl hso]
      simp [hz]
    · rw [if_neg hz]
      simp only [Chan.send, hrc, Bool.false_eq_true, if_false]
      rw [ih k
          { cc with
            conn := some { conn with toRead := rest.flatMap (fun f => encode f.1 f.2) }
            recieved :=
              { queue := cc.recieved.queue ++
                  [{ Status := cc.status, Data := f.2, MsgType := f.1 }],
                closed := false } }
          { conn with toRead := rest.flatMap (fun f => encode f.1 f.2) }
          hk hrest rfl rfl rfl hso]
      simp [hz]

theorem encode_frames_length (frames : List (Int × List Byte)) :
    8 * frames.length ≤ (frames.flatMap (fun f => encode f.1 f.2)).length := by
  induction frames with
  | nil => simp
  | cons f rest ih =>
    have h8 : (encode f.1 f.2).length = 8 + f.2.length := by
      rw [encode_eq]; simp [intToBytes_length]; omega
    simp only [List.flatMap_cons, List.length_append, List.length_cons, h8]
    omega

/-- C23: for every sequence of well-formed frames on a stream (type field `t` with
`0 <= t < 2^32`, length field `4 + len(body)` below `2^32`), the stream then staying
open and every read filling its buffer: `Server.read` on a server that is not Closed,
and `Client.read`, append to the open inbound channel exactly one message for every
frame whose type field is not zero, in the order of the frames on the wire, carrying
that frame's type and body (and the connection, on the server; the client's status, on
the client); frames whose type field is zero add nothing. The reader then waits for the
next frame. -/
theorem reader_delivers_nonzero_frames (frames : List (Int × List Byte)) (sc : Server)
    (connection : Connection) (ptr : ConnPtr) (cc : Client) (conn : Conn)
    (hwf : ∀ f ∈ frames, 0 ≤ f.1 ∧ f.1 < 4294967296 ∧ 4 + (f.2.length : Int) < 4294967296)
    (hsc : sc.status ≠ .Closed) (hrc : sc.recieved.closed = false)
    (hs : connection.conn.toRead = frames.flatMap (fun f => encode f.1 f.2))
    (hso : connection.conn.readErr = none)
    (hconn : cc.conn = some conn) (hcc : cc.recieved.closed = false)
    (hcs : conn.toRead = frames.flatMap (fun f => encode f.1 f.2))
    (hco : conn.readErr = none) :
    Server.read sc connection ptr =
      .ok (.waiting,
        { sc with
          recieved := { sc.recieved with
            queue := sc.recieved.queue ++
              (frames.filter (fun f => decide (f.1 ≠ 0))).map
                (fun f => { Connection := some ptr, Data := f.2, MsgType := f.1 }) } },
        { connection with conn := { connection.conn with toRead := [] } }) ∧
    Client.read cc =
      .ok (.waiting,
        { cc with
          conn := some { conn with toRead := [] }
          recieved := { cc.recieved with
            queue := cc.recieved.queue ++
              (frames.filter (fun f => decide (f.1 ≠ 0))).map
                (fun f => { Status := cc.status, Data := f.2, MsgType := f.1 }) } },
        []) := by
  have hlen := encode_frames_length frames
  constructor
  · exact Server.readLoop_frames ptr frames _ sc connection (by rw [hs]; omega) hwf hsc hrc
      hs hso
  · have hun : cc.unread = conn.toRead := by simp [Client.unread, hconn]
    exact Client.readLoop_frame_list frames _ cc conn (by rw [hun, hcs]; omega) hwf hconn hcc
      hcs hco

/-- C23, at a concrete input: the frames (5, [1,2,3]), (0, []), (9, [8]) on the stream of
a server connection at address 7 and on the stream of a Connected client. -/
theorem reader_delivers_nonzero_frames_witness :
    Server.read { status := .Listening }
        { conn := { toRead :=
            [0, 0, 0, 7, 0, 0, 0, 5, 1, 2, 3, 0, 0, 0, 4, 0, 0, 0, 0, 0, 0, 0, 5, 0, 0, 0, 9, 8] } }
        7 =
      .ok (.waiting,
        { status := .Listening,
          recieved := { queue :=
            [{ Connection := some 7, Data := [1, 2, 3], MsgType := 5 },
             { Connection := some 7, Data := [8], MsgType := 9 }] } },
        { conn := { toRead := [] } }) ∧
    Client.read
        { status := .Connected,
          conn := some { toRead :=
            [0, 0, 0, 7, 0, 0, 0, 5, 1, 2, 3, 0, 0, 0, 4, 0, 0, 0, 0, 0, 0, 0, 5, 0, 0, 0, 9, 8] } } =
      .ok (.waiting,
        { status := .Connected,
          conn := some { toRead := [] },
          recieved := { queue :=
            [{ Status := .Connected, Data := [1, 2, 3], MsgType := 5 },
             { Status := .Connected, Data := [8], MsgType := 9 }] } },
        []) :=
  reader_delivers_nonzero_frames [(5, [1, 2, 3]), (0, []), (9, [8])] { status := .Listening }
    { conn := { toRead :=
        [0, 0, 0, 7, 0, 0, 0, 5, 1, 2, 3, 0, 0, 0, 4, 0, 0, 0, 0, 0, 0, 0, 5, 0, 0, 0, 9, 8] } }
    7
    { status := .Connected,
      conn := some { toRead :=
        [0, 0, 0, 7, 0, 0, 0, 5, 1, 2, 3, 0, 0, 0, 4, 0, 0, 0, 0, 0, 0, 0, 5, 0, 0, 0, 9, 8] } }
    { toRead :=
        [0, 0, 0, 7, 0, 0, 0, 5, 1, 2, 3, 0, 0, 0, 4, 0, 0, 0, 0, 0, 0, 0, 5, 0, 0, 0, 9, 8] }
    (by decide) (by decide) rfl (by decide) rfl rfl rfl (by decide) rfl

/-- C25, as stated, fails: the message the server reader pushes for the frame of type 5
with body `[1, 2, 3]`, arriving on the Connected connection at address 7, has the
Status NotConnected, not Connected. -/
theorem server_data_message_status_counterexample :
    Server.read { status := .Listening }
        { status := .Connected,
          conn := { toRead := [0, 0, 0, 7, 0, 0, 0, 5, 1, 2, 3] } } 7 =
      .ok (.waiting,
        { status := .Listening,
          recieved := { queue :=
            [{ MsgType := 5, Connection := some 7, err := none, Data := [1, 2, 3],
               Status := .NotConnected }] } },
        { status := .Connected, conn := { toRead := [] } }) ∧
    ({ MsgType := 5, Connection := some 7, err := none, Data := [1, 2, 3],
       Status := .NotConnected } : Message).Status ≠ .Connected := by
  decide

/-- C25, amended: for a frame with type `0 < msgType < 2^32` and a length field that
does not wrap, wherever it stands on the stream, the server reader (server not Closed,
inbound channel open) pushes one message that carries the frame's msgType, its body and
the connection it arrived on, no error, and the Status NotConnected, the zero value the
reader leaves in that field; it then goes on behind the frame. -/
theorem server_data_message_fields (ptr : ConnPtr) (fuel : Nat) (sc : Server)
    (connection : Connection) (msgType : Int) (body rest : List Byte)
    (hpos : 0 < msgType) (hty : msgType < 4294967296)
    (hfit : 4 + (body.length : Int) < 4294967296)
    (hsc : sc.status ≠ .Closed) (hrc : sc.recieved.closed = false)
    (h : connection.conn.toRead = encode msgType body ++ rest) :
    Server.readLoop ptr (fuel + 1) sc connection =
      Server.readLoop ptr fuel
        { sc with
          recieved := { sc.recieved with
            queue := sc.recieved.queue ++
              [{ MsgType := msgType, Connection := some ptr, err := none, Data := body,
                 Status := .NotConnected }] } }
        { connection with conn := { connection.conn with toRead := rest } } := by
  have hmod : msgType % 4294967296 = msgType := Int.emod_eq_of_lt (le_of_lt hpos) hty
  have hne : ¬ msgType = 0 := by omega
  rw [Server.readLoop_encode ptr fuel sc connection msgType body rest hfit h, hmod,
    if_neg hne, if_pos hsc]
  simp only [Chan.send, hrc, Bool.false_eq_true, if_false]

/-- C25 amended, at a concrete input: the frame of type 5 with body `[1, 2, 3]` on the
Connected connection at address 7. -/
theorem server_data_message_fields_witness :
    Server.readLoop 7 2 { status := .Listening }
        { status := .Connected,
          conn := { toRead := [0, 0, 0, 7, 0, 0, 0, 5, 1, 2, 3] } } =
      Server.readLoop 7 1
        { status := .Listening,
          recieved := { queue :=
            [{ MsgType := 5, Connection := some 7, err := none, Data := [1, 2, 3],
               Status := .NotConnected }] } }
        { status := .Connected, conn := { toRead := [] } } :=
  server_data_message_fields 7 1 { status := .Listening }
    { status := .Connected, conn := { toRead := [0, 0, 0, 7, 0, 0, 0, 5, 1, 2, 3] } }
    5 [1, 2, 3] [] (by decide) (by decide) (by decide) (by decide) rfl rfl

/-! ## Theorems: closing a connection -/

/-- C22, as stated, fails. On a Connected connection, `Close()` followed by a read error
of the reader leaves the connection Closed with its outbound channel still open; and a
read error followed by `Close()` closes the outbound channel a second time, which is a
run-time panic. -/
theorem connection_close_counterexample :
    (Connection.events 7 [.Close, .readError "EOF"] { status := .Listening }
        { status := .Connected }).map (fun r => (r.2.status, r.2.toWrite.closed)) =
      .ok (.Closed, false) ∧
    Connection.events 7 [.readError "EOF", .Close] { status := .Listening }
        { status := .Connected } =
      .panic "close of closed channel" := by
  decide

/-- C22, amended: for a connection whose outbound channel is open (the inbound channel
of the server being closed only on a Closed server): a read error of the reader on a
connection that is not Closing makes it Closed and closes the outbound channel, once;
`Close()` followed by a read error makes the connection Closed and leaves the outbound
channel open; and one more `Close()` after that closes the outbound channel, once. -/
theorem connection_close_events (ptr : ConnPtr) (sc : Server) (connection : Connection)
    (e : String) (hinv : sc.recieved.closed = true → sc.status = .Closed)
    (hopen : connection.toWrite.closed = false) :
    (connection.status ≠ .Closing →
      (Connection.events ptr [.readError e] sc connection).map
          (fun r => (r.2.status, r.2.toWrite.closed)) = .ok (.Closed, true)) ∧
    (connection.status ≠ .Closed →
      (Connection.events ptr [.Close, .readError e] sc connection).map
          (fun r => (r.2.status, r.2.toWrite.closed)) = .ok (.Closed, false)) ∧
    (connection.status ≠ .Closed →
      (Connection.events ptr [.Close, .readError e, .Close] sc connection).map
          (fun r => (r.2.status, r.2.toWrite.closed)) = .ok (.Closed, true)) := by
  have hsend : sc.status ≠ .Closed → sc.recieved.closed = false := by
    intro hs
    cases h : sc.recieved.closed with
    | false => rfl
    | true => exact absurd (hinv h) hs
  refine ⟨?_, ?_, ?_⟩
  · intro hc
    by_cases hs : sc.status = .Closed
    · simp [Connection.events, Connection.event, Server.readData, Conn.Read, hs, hc,
        Connection.Close, Chan.close, hopen, Outcome.map]
    · simp [Connection.events, Connection.event, Server.readData, Conn.Read, hs, hc,
        Connection.Close, Chan.close, hopen, Outcome.map, Chan.send, hsend hs]
  · intro hc
    by_cases hs : sc.status = .Closed
    · simp [Connection.events, Connection.event, Server.readData, Conn.Read, hs, hc,
        Connection.Close, Conn.Close, hopen, Outcome.map]
    · simp [Connection.events, Connection.event, Server.readData, Conn.Read, hs, hc,
        Connection.Close, Conn.Close, hopen, Outcome.map, Chan.send, hsend hs]
  · intro hc
    by_cases hs : sc.status = .Closed
    · simp [Connection.events, Connection.event, Server.readData, Conn.Read, hs, hc,
        Connection.Close, Conn.Close, Chan.close, hopen, Outcome.map]
    · simp [Connection.events, Connection.event, Server.readData, Conn.Read, hs, hc,
        Connection.Close, Conn.Close, Chan.close, hopen, Outcome.map, Chan.send, hsend hs]

/-- C22 amended, at a concrete input: a Connected connection at address 7 of a Listening
server, with the read error "EOF". -/
theorem connection_close_events_witness :
    (Connection.events 7 [.readError "EOF"] { status := .Listening }
        { status := .Connected }).map (fun r => (r.2.status, r.2.toWrite.closed)) =
      .ok (.Closed, true) ∧
    (Connection.events 7 [.Close, .readError "EOF"] { status := .Listening }
        { status := .Connected }).map (fun r => (r.2.status, r.2.toWrite.closed)) =
      .ok (.Closed, false) ∧
    (Connection.events 7 [.Close, .readError "EOF", .Close] { status := .Listening }
        { status := .Connected }).map (fun r => (r.2.status, r.2.toWrite.closed)) =
      .ok (.Closed, true) :=
  have h := connection_close_events 7 { status := .Listening } { status := .Connected }
    "EOF" (by decide) rfl
  ⟨h.1 (by decide), h.2.1 (by decide), h.2.2 (by decide)⟩

/-! ## Theorems: the client reader ends -/

/-- A read of the client reader that fills its buffer takes exactly that many bytes off
the stream. -/
theorem Client.readData_took (cc cc1 : Client) (n : Nat) (buff : List Byte)
    (started : List Goroutine)
    (h : Client.readData cc n = .ok (.filled buff, cc1, started)) :
    cc1.unread.length + n = cc.unread.length := by
  unfold Client.readData at h
  cases hc : cc.conn with
  | none => simp [hc] at h
  | some conn =>
    simp only [hc] at h
    by_cases hn : n ≤ conn.toRead.length
    · simp only [Conn.Read, hn, if_true] at h
      injection h with h
      injection h with _ h
      injection h with h _
      subst h
      simp [Client.unread, hc]
      omega
    · simp only [Conn.Read, hn, if_false] at h
      cases he : conn.readErr with
      | none => simp [he] at h
      | some e =>
        simp only [he] at h
        repeat' split at h
        all_goals cases h

/-- The client reader loop does not use up a budget of more than a quarter of the
unread bytes: it ends by stopping, waiting or panicking. -/
theorem Client.readLoop_within_budget (fuel : Nat) (cc : Client)
    (hfuel : cc.unread.length < 4 * fuel) (r : LoopEnd × Client × List Goroutine)
    (h : Client.readLoop fuel cc = .ok r) : r.1 ≠ .more := by
  induction fuel generalizing cc with
  | zero => omega
  | succ k ih =>
    rw [Client.readLoop] at h
    split at h
    · cases h
    · cases h; simp
    · cases h; simp
    · rename_i bLen cc1 g1 h1
      have hl1 := Client.readData_took _ _ _ _ _ h1
      simp only at h
      split at h
      · cases h
      · cases h; simp
      · cases h; simp
      · rename_i msgRecvd cc2 g2 h2
        have hl2 := Client.readData_took _ _ _ _ _ h2
        have hk : cc2.unread.length < 4 * k := by omega
        split at h
        · cases h
        · split at h
          · exact ih _ hk h
          · split at h
            · cases h
            · exact ih _ (by simpa [Client.unread] using hk) h

/-- Client.read always ends by stopping, waiting or panicking: the budget of the model
is never the reason it ends. -/
theorem Client.read_ends (cc : Client) (r : LoopEnd × Client × List Goroutine)
    (h : Client.read cc = .ok r) : r.1 ≠ .more :=
  Client.readLoop_within_budget _ cc (by omega) r h

end Ipc
